import Mathlib

/-
Verification of the transaction reconciliation and normalization engine of
stock-to-cryptotaxcalculator.io, a batch converter from brokerage exports
(eToro, IG, IBKR, Schwab) to the canonical ledger format of
cryptotaxcalculator.io.

The Lean definitions below are a shallow embedding of the Python source:
  - numbers are modelled as rationals; the Python floats at every concrete
    input used in a theorem are exactly representable, and no theorem input
    sits on a rounding tie, so the float/rational gap does not matter;
  - pandas Timestamps are modelled as civil date-time records; time
    differences go through a standard civil-calendar day count;
  - NaN cells of a data frame (missing values) are modelled as Option.none;
  - Python exceptions (the validate helper raising on a false condition)
    are modelled with Except String; a raised exception aborts the run.
Python round rounds halves to even; the model rounds halves up.  No input
appearing in any theorem below is a tie, so the two agree everywhere used.
-/

attribute [local semireducible] Rat.add Rat.mul Rat.sub Rat.inv Rat.ofScientific

deriving instance DecidableEq for Except

namespace StockToCtc

/-! ## Basic numeric helpers -/

/-- Rounding to n decimal places, as the Python round(x, n) calls used for
final amounts (see the file-level comment on the half-up versus half-even
difference, which no concrete input below exercises). -/
def roundTo (n : ℕ) (q : ℚ) : ℚ := ((round (q * 10 ^ n) : ℤ) : ℚ) / 10 ^ n

/-! ## Decimal digit rendering

The source renders numbers through str / strftime / numpy.  The model uses
its own fuel-based base-10 renderer so that theorems about the produced
characters can be proved by induction. -/

def digitChar (n : ℕ) : Char :=
  if n = 0 then '0' else if n = 1 then '1' else if n = 2 then '2'
  else if n = 3 then '3' else if n = 4 then '4' else if n = 5 then '5'
  else if n = 6 then '6' else if n = 7 then '7' else if n = 8 then '8' else '9'

def natDigitsAux : ℕ → ℕ → List Char → List Char
  | 0, _, acc => acc
  | fuel + 1, n, acc =>
    if n < 10 then digitChar (n % 10) :: acc
    else natDigitsAux fuel (n / 10) (digitChar (n % 10) :: acc)

/-- Decimal digits of a natural number, most significant first. -/
def natDigits (n : ℕ) : List Char := natDigitsAux (n + 1) n []

def natDigitsStr (n : ℕ) : String := ⟨natDigits n⟩

/-- Two-digit zero padding, as strftime %m, %d, %H, %M, %S produce. -/
def pad2 (n : ℕ) : String := if n < 10 then "0" ++ natDigitsStr n else natDigitsStr n

/-- Four-digit zero padding, as strftime %Y produces for common-era years. -/
def pad4 (n : ℕ) : String :=
  if n < 10 then "000" ++ natDigitsStr n
  else if n < 100 then "00" ++ natDigitsStr n
  else if n < 1000 then "0" ++ natDigitsStr n
  else natDigitsStr n

/-- Rendering of an integer in decimal, sign included. -/
def intDigitsStr (i : ℤ) : String :=
  if i < 0 then "-" ++ natDigitsStr i.natAbs else natDigitsStr i.natAbs

/-- Display-only rendering of a rational for free-text descriptions.  The
Python source interpolates str(float) there; no theorem inspects these
description substrings. -/
def ratStr (q : ℚ) : String :=
  if q.den = 1 then intDigitsStr q.num
  else intDigitsStr q.num ++ "/" ++ natDigitsStr q.den

/-! ## String helpers -/

/-- Code-point lexicographic comparison, as Python compares strings. -/
def charListLe : List Char → List Char → Bool
  | [], _ => true
  | _ :: _, [] => false
  | a :: as, b :: bs =>
    if a.toNat < b.toNat then true
    else if b.toNat < a.toNat then false
    else charListLe as bs

def strLeB (a b : String) : Bool := charListLe a.data b.data

/-- Substring containment, as the Python in operator and pandas str.contains
(the IG auxiliary matching uses the latter with a plain, regex-free id). -/
def strContains (hay needle : String) : Bool := decide (needle.data <:+: hay.data)

/-- Python str.strip: remove leading and trailing whitespace (the source only
ever strips ordinary spaces). -/
def pyStrip (s : String) : String :=
  ⟨((s.data.dropWhile (· = ' ')).reverse.dropWhile (· = ' ')).reverse⟩

/-- Split a character list on a separator, as Python str.split with an
explicit one-character separator. -/
def splitOnChar (sep : Char) : List Char → List (List Char)
  | [] => [[]]
  | c :: cs =>
    match splitOnChar sep cs with
    | [] => if c = sep then [[], [c]] else [[c]]
    | g :: gs => if c = sep then [] :: g :: gs else (c :: g) :: gs

def digitVal (c : Char) : Option ℕ :=
  if '0' ≤ c ∧ c ≤ '9' then some (c.toNat - 48) else none

def charsToNatAux : List Char → ℕ → Option ℕ
  | [], acc => some acc
  | c :: cs, acc =>
    match digitVal c with
    | some d => charsToNatAux cs (acc * 10 + d)
    | none => none

/-- Value of a nonempty all-digit character list. -/
def charsToNat? : List Char → Option ℕ
  | [] => none
  | c :: cs => charsToNatAux (c :: cs) 0

def isWordChar (c : Char) : Bool :=
  (('A' ≤ c && c ≤ 'Z') || ('a' ≤ c && c ≤ 'z') || ('0' ≤ c && c ≤ '9') || c = '_')

/-! ## Date-time model

A pandas Timestamp is a civil date-time; differences are real elapsed time.
daysFromCivil is the standard proleptic-Gregorian day count (days since
1970-01-01). -/

structure DateTime where
  year : ℕ
  month : ℕ
  day : ℕ
  hour : ℕ := 0
  minute : ℕ := 0
  second : ℕ := 0
  micro : ℕ := 0
deriving DecidableEq

def daysFromCivil (y m d : ℤ) : ℤ :=
  let y := if m ≤ 2 then y - 1 else y
  let era := (if 0 ≤ y then y else y - 399) / 400
  let yoe := y - era * 400
  let doy := (153 * (m + (if 2 < m then -3 else 9)) + 2) / 5 + d - 1
  let doe := yoe * 365 + yoe / 4 - yoe / 100 + doy
  era * 146097 + doe - 719468

/-- Whole seconds of a date-time since the epoch. -/
def DateTime.toSec (t : DateTime) : ℤ :=
  daysFromCivil t.year t.month t.day * 86400 + t.hour * 3600 + t.minute * 60 + t.second

/-- Difference in seconds between two timestamps, as
(first - second).total_seconds() in pandas, microseconds included. -/
def diffSec (a b : DateTime) : ℚ :=
  ((a.toSec - b.toSec : ℤ) : ℚ) + ((a.micro : ℚ) - (b.micro : ℚ)) / 1000000

/-- helpers/date_time.py almost_identical. -/
def almost_identical (a b : DateTime) (offset_sec : ℚ) : Prop :=
  |diffSec a b| ≤ offset_sec

instance (a b : DateTime) (off : ℚ) : Decidable (almost_identical a b off) := by
  unfold almost_identical; infer_instance

def isLeapYear (y : ℕ) : Bool := (y % 4 = 0 && y % 100 != 0) || y % 400 = 0

def daysInMonth (y m : ℕ) : ℕ :=
  if m = 2 then (if isLeapYear y then 29 else 28)
  else if m = 4 ∨ m = 6 ∨ m = 9 ∨ m = 11 then 30 else 31

def DateTime.nextDay (t : DateTime) : DateTime :=
  if t.day < daysInMonth t.year t.month then { t with day := t.day + 1 }
  else if t.month < 12 then { t with day := 1, month := t.month + 1 }
  else { t with day := 1, month := 1, year := t.year + 1 }

def DateTime.addDays : DateTime → ℕ → DateTime
  | t, 0 => t
  | t, n + 1 => (t.nextDay).addDays n

/-- datetime.timedelta(hours=n) addition, as the Schwab parser offsets rows. -/
def DateTime.addHours (t : DateTime) (n : ℕ) : DateTime :=
  let h := t.hour + n
  ({ t with hour := h % 24 } : DateTime).addDays (h / 24)

/-! ## config/types.py -/

inductive Exchange
  | Bank | Etoro | IG | IG_CFD | Schwab | Ibkr | Dividends | CFDs | Unknown
deriving DecidableEq

/-- String value of the Exchange str-enum. -/
def Exchange.toStr : Exchange → String
  | .Bank => "Bank"
  | .Etoro => "eToro"
  | .IG => "IG"
  | .IG_CFD => "IG-CFD"
  | .Schwab => "Schwab"
  | .Ibkr => "IBKR"
  | .Dividends => "Dividends"
  | .CFDs => "CFDs"
  | .Unknown => "Unknown"

inductive OutputType
  | FiatDeposit | FiatWithdrawal | Buy | Sell | ChainSplit | Interest
  | RealizedProfit | RealizedLoss | Fee | Receive | Send
deriving DecidableEq

/-- The canonical ledger row, with the values the parsers pass to the
OutputRow constructor.  An Option.none amount is the Python None (or a NaN
cell forwarded unchanged); pydantic stores amounts and the timestamp as
strings, which is modelled separately by StoredOutputRow below. -/
structure OutputRow where
  TimestampUTC : DateTime
  Type' : OutputType
  BaseCurrency : String
  BaseAmount : Option ℚ
  QuoteCurrency : String := ""
  QuoteAmount : Option ℚ := none
  FeeCurrency : String := ""
  FeeAmount : Option ℚ := none
  From : Exchange
  To : Exchange
  Blockchain : String := ""
  ID : String := ""
  Description : String := ""
  ReferencePricePerUnit : Option ℚ := none
  ReferencePriceCurrency : String := ""
deriving DecidableEq

/-! ## The pydantic validators of OutputRow (config/types.py lines 48-73)

convert_timestamp_to_string is the validator on TimestampUTC;
avoid_scientific_float_notation is the validator on BaseAmount, QuoteAmount
and FeeAmount.  Both run exactly once, when the row object is constructed. -/

/-- strftime with format %Y-%m-%d %H:%M:%S; the format has no %f directive,
so sub-second precision is discarded. -/
def convert_timestamp_to_string (t : DateTime) : String :=
  pad4 t.year ++ "-" ++ pad2 t.month ++ "-" ++ pad2 t.day ++ " " ++
  pad2 t.hour ++ ":" ++ pad2 t.minute ++ ":" ++ pad2 t.second

/-- Exact finite decimal expansion of a float value: the value is
mantissa times 10 to the exponent.  Every finite IEEE double has one, and
numpy format_float_positional prints exactly such an expansion (its shortest
round-tripping one) in positional notation. -/
structure Dec where
  mantissa : ℤ
  exponent : ℤ
deriving DecidableEq

/-- Strip trailing zero digits from a fraction part given as (digits value,
digit count); mirrors the trim minus mode of numpy format_float_positional,
which drops trailing zeros and a bare trailing decimal point. -/
def stripTrailingZeros : ℕ → ℕ → ℕ × ℕ
  | _, 0 => (0, 0)
  | fp, k + 1 =>
    if fp = 0 then (0, 0)
    else if fp % 10 = 0 then stripTrailingZeros (fp / 10) k
    else (fp, k + 1)

/-- Left-pad a digit string with zeros to the given length. -/
def padDigitsTo (s : List Char) (k : ℕ) : List Char :=
  List.replicate (k - s.length) '0' ++ s

/-- numpy.format_float_positional(value, trim=minus) on the exact decimal
expansion of the value: positional notation, never scientific. -/
def format_float_positional (d : Dec) : String :=
  let sign : String := if d.mantissa < 0 then "-" else ""
  let m := d.mantissa.natAbs
  if m = 0 then "0"
  else if 0 ≤ d.exponent then
    sign ++ natDigitsStr (m * 10 ^ d.exponent.toNat)
  else
    let k := (-d.exponent).toNat
    let ip := m / 10 ^ k
    let s := stripTrailingZeros (m % 10 ^ k) k
    if s.2 = 0 then sign ++ natDigitsStr ip
    else sign ++ natDigitsStr ip ++ "." ++ ⟨padDigitsTo (natDigits s.1) s.2⟩

/-- The amount validator: None becomes the empty string, a float value its
positional decimal rendering. -/
def avoid_scientific_float_notation : Option Dec → String
  | none => ""
  | some d => format_float_positional d

/-- The stored (post-validation) form of an output row: what the external
CSV serializer receives. -/
structure StoredOutputRow where
  TimestampUTC : String
  BaseAmount : String
  QuoteAmount : String
  FeeAmount : String
deriving DecidableEq

/-- Construction of an output row as pydantic performs it: each validator
runs exactly once, at construction time, on the typed constructor inputs
(timestamp, and the exact decimal expansions of the three float amounts). -/
def buildStoredOutputRow (ts : DateTime) (base quote fee : Option Dec) : StoredOutputRow :=
  { TimestampUTC := convert_timestamp_to_string ts
    BaseAmount := avoid_scientific_float_notation base
    QuoteAmount := avoid_scientific_float_notation quote
    FeeAmount := avoid_scientific_float_notation fee }

/-! ## helpers/validation.py -/

/-- validate raises an Exception when the condition is false.  The Python
message also appends a rendering of the offending context records; the model
keeps the message text only. -/
def validate (condition : Prop) [Decidable condition] (error : String) :
    Except String Unit :=
  if condition then .ok () else .error error

/-! ## helpers/warnings.py (show_warning_once and the already_shown dict)

The deduplication state is the module-level dict show_warning_once.already_shown,
created once at import time and never reset.  It is modelled as the list of
keys in insertion order; the Bool records whether the warning was printed. -/

def show_warning_once (group : String) (shown : List String) : Bool × List String :=
  if group ∈ shown then (false, shown) else (true, shown ++ [group])

/-- A run of warning calls: the list of group keys a parser run asks to show,
threaded through the shared state; returns the keys actually printed. -/
def runWarnings : List String → List String → List String × List String
  | [], shown => ([], shown)
  | g :: gs, shown =>
    let r := show_warning_once g shown
    let rest := runWarnings gs r.2
    ((if r.1 then [g] else []) ++ rest.1, rest.2)

/-! ## config/config.py and helpers/stock_market.py -/

/-- The static ticker translation table.  The Python dict has entries only
for the four broker exchanges; indexing it with any other exchange raises
KeyError, modelled as none. -/
def translate_tickers : Exchange → Option (List (String × String))
  | .Etoro => some [("MDT.US", "MDT"), ("ROG.ZU", "ROG.SW"), ("VACQ", "RKLB")]
  | .Ibkr => some [("VACQ", "RKLB")]
  | .IG => some
      [("ARK Autonomous Technology & Robotics ETF", "ARKQ"),
       ("ARK Fintech Innovation ETF", "ARKF"),
       ("ARK Genomic Revolution ETF", "ARKG"),
       ("ARK Innovation ETF", "ARKK"),
       ("ARK Space Exploration & Innovation ETF", "ARKX"),
       ("ARK Web x.0 ETF", "ARKW"),
       ("Arcimoto Inc", "FUV"),
       ("Berkeley Lights Inc", "BLI"),
       ("Beyond Meat Inc (All Sessions)", "BYND"),
       ("CRISPR Therapeutic SA", "CRSP"),
       ("Digital Turbine Inc", "APPS"),
       ("Discovery Inc - A", "WBD"),
       ("Editas Medicine Inc", "EDIT"),
       ("Intellia Therapeutics Inc", "NTLA"),
       ("Lemonade Inc", "LMND"),
       ("Lordstown Motors Corp (Ord)", "RIDE"),
       ("NVIDIA Corp (All Sessions)", "NVDA"),
       ("One (Ord)", "MKFG"),
       ("Ormat Technologies Inc", "ORA"),
       ("Palantir Technologies Inc", "PLTR"),
       ("Palantir Technologies Inc (All Sessions)", "PLTR"),
       ("Rocket Lab USA Inc", "RKLB"),
       ("Southwestern Energy Co", "SWN"),
       ("SPDR S&P 500 ETF Trust (All Sessions)", "SPY"),
       ("Shift4 Payments Inc", "FOUR"),
       ("Tesla Motors Inc (All Sessions)", "TSLA"),
       ("Twitter Inc (All Sessions)", "TWTR"),
       ("Vector Acquisition Corporation", "RKLB")]
  | .Schwab => some []
  | _ => none

def lookupPairs (tbl : List (String × String)) (key : String) : Option String :=
  match tbl.find? (fun p => p.1 = key) with
  | some p => some p.2
  | none => none

/-- helpers/stock_market.py parse_ticker.  AssetType is a str-enum, so the
asset class is carried as its string value; any value outside the three enum
members reaches the final validate(False), the unsupported-asset-class
failure.  The advisory non-clean-ticker warning emitted on the untranslated
branch does not affect the returned value and is modelled by the warnings
component above. -/
def parse_ticker (ticker : String) (exchange : Exchange) (asset_type : String) :
    Except String String := do
  let tbl ← match translate_tickers exchange with
    | some tbl => Except.ok tbl
    | none => Except.error "KeyError: exchange missing from translate_tickers"
  let ticker := match lookupPairs tbl ticker with
    | some t => t
    | none => ticker
  if asset_type = "Crypto" then
    pure ticker
  else if asset_type = "Stock" then
    pure (ticker ++ ":STOCK")
  else if asset_type = "Option" then
    pure ("OPT:" ++ ticker)
  else
    Except.error ("Asset Type " ++ asset_type ++ " does not have a ticker name implemented.")

/-! ## parsers/etoro/EtoroDataParser.py

Row shapes follow the TransactionRow and PositionRow named tuples (the
TransactionTuple and PositionTuple shapes in parsers/types.py): an Account
Activity row and a Closed Positions row.  Only the display-only fields that
no code path reads (Realized_Equity, Spread, rates, ISIN, Notes, ...) are
omitted.  A NaN numeric cell is Option.none.  Position_ID is a string in the
activity sheet and an integer index in the positions sheet. -/

structure EtoroTransactionRow where
  Index : ℕ
  Date : DateTime
  Type' : String
  Details : String
  Amount : ℚ
  Units : Option ℚ
  Realized_Equity_Change : ℚ
  Balance : ℚ
  Position_ID : String
  Asset_type : String
  NWA : ℚ
deriving DecidableEq

structure EtoroPositionRow where
  Index : ℕ
  Action : String
  Amount : ℚ
  Units : ℚ
  Open_Date : DateTime
  Close_Date : DateTime
  Leverage : ℚ
  Profit : ℚ
  Rollover_Fees_and_Dividends : ℚ
  Type' : String
deriving DecidableEq

namespace Etoro

/-- The only supported base fiat currency. -/
def base_fiat : String := "USD"

def make_id (base_id : String) : String := Exchange.Etoro.toStr ++ ":" ++ base_id

/-- EtoroDataParser.__parse_ticker: crypto keeps its asset class, everything
else is treated as stock. -/
def etoro_ticker (ticker : String) (asset_type : String) : Except String String :=
  parse_ticker ticker .Etoro (if asset_type = "Crypto" then "Crypto" else "Stock")

/-- __get_transactions_of_type: activity rows for one position id (rendered
in decimal, as Python str of the integer index) and one transaction type. -/
def get_transactions_of_type (txs : List EtoroTransactionRow) (position_id : ℕ)
    (transaction_type : String) : List EtoroTransactionRow :=
  txs.filter (fun t => t.Position_ID = natDigitsStr position_id ∧ t.Type' = transaction_type)

/-- __get_all_other_partial_trade_positions: same open date, different
identity, same asset type. -/
def get_all_other_partial_trade_positions (positions : List EtoroPositionRow)
    (position : EtoroPositionRow) : List EtoroPositionRow :=
  positions.filter (fun q =>
    q.Open_Date = position.Open_Date ∧ q.Index ≠ position.Index ∧ q.Type' = position.Type')

/-- __check_partial_positions_consistency. -/
def check_partial_positions_consistency (txs : List EtoroTransactionRow)
    (positions : List EtoroPositionRow) (position : EtoroPositionRow) : Bool :=
  if (get_transactions_of_type txs position.Index "Open Position").length = 1 then true
  else (get_all_other_partial_trade_positions positions position).any (fun q =>
    (get_transactions_of_type txs q.Index "Open Position").length = 1)

/-- Date part of a timestamp as Python str of datetime.date renders it. -/
def dateStr (t : DateTime) : String :=
  pad4 t.year ++ "-" ++ pad2 t.month ++ "-" ++ pad2 t.day

/-- The message of the failed consistency validate in __validate_positions:
it instructs the user to use a source file that starts earlier. -/
def widen_window_message (position : EtoroPositionRow) : String :=
  "Please use a source file with transaction data starting on " ++
  dateStr position.Open_Date ++
  " or earlier in order to include the opening trade for position \x27" ++
  natDigitsStr position.Index ++
  "\x27. If this is a partial position, this is required to calculate the opening price correctly."

/-- One iteration of __validate_positions. -/
def validate_one_position (txs : List EtoroTransactionRow)
    (positions : List EtoroPositionRow) (position : EtoroPositionRow) :
    Except String Unit := do
  validate (position.Type' = "CFD" ∨ position.Rollover_Fees_and_Dividends =
      ((get_transactions_of_type txs position.Index "Dividend").map (·.Amount)).sum)
    "Stock-like assets should have no rollover fees and consistent information about dividends."
  validate (position.Type' = "CFD" ∨ position.Leverage = 1)
    "Only CFDs can be leveraged."
  validate (check_partial_positions_consistency txs positions position = true)
    (widen_window_message position)

/-- __validate_positions iterates the closed positions in sheet order. -/
def validate_positions (txs : List EtoroTransactionRow)
    (positions : List EtoroPositionRow) : Except String Unit :=
  (positions.foldlM (fun _ p => validate_one_position txs positions p) ()).map (fun _ => ())

/-- helpers/data_frames.py get_one_by_key on the Closed Positions frame:
an empty (falsy) key is None; the key is parsed as an integer; a unique
index hit is the row; more than one hit raises.  A missing key surfaces as
None (pandas KeyError on the label slice, caught by get_by_key). -/
def get_one_by_key (positions : List EtoroPositionRow) (key : String) :
    Except String (Option EtoroPositionRow) :=
  if key = "" then .ok none
  else match charsToNat? key.data with
    | none => .error "invalid literal for int()"
    | some k =>
      match positions.filter (fun p => p.Index = k) with
      | [] => .ok none
      | [p] => .ok (some p)
      | _ => .error "The values are not unique!"

/-- __validate_fiat_transaction. -/
def validate_fiat_transaction (t : EtoroTransactionRow) (operation_name : String) :
    Except String Unit := do
  validate (t.Amount = t.Realized_Equity_Change) (operation_name ++ " amount inconsistent.")
  validate (t.Position_ID = "" ∧ t.Asset_type = "")
    (operation_name ++ " cannot have Position ID or Asset type.")

/-- __parse_deposit_or_withdrawal. -/
def parse_deposit_or_withdrawal (t : EtoroTransactionRow) (is_deposit : Bool) :
    Except String OutputRow := do
  validate_fiat_transaction t (if is_deposit then "Deposit" else "Withdrawal")
  pure
    { Type' := if is_deposit then .FiatDeposit else .FiatWithdrawal
      From := if is_deposit then .Bank else .Etoro
      To := if is_deposit then .Etoro else .Bank
      Description := pyStrip (Exchange.Etoro.toStr ++ " " ++ t.Type' ++ " " ++ t.Details)
      TimestampUTC := t.Date
      BaseCurrency := base_fiat
      BaseAmount := some |t.Amount|
      ID := "" }

/-- __parse_interest_payment. -/
def parse_interest_payment (t : EtoroTransactionRow) : Except String OutputRow := do
  validate_fiat_transaction t "Interest Payment"
  validate (t.Details = "" ∧ t.Units = none) "Interest Payment has unexpected data."
  pure
    { TimestampUTC := t.Date
      Type' := .Interest
      BaseCurrency := base_fiat
      BaseAmount := some t.Amount
      From := .Etoro
      To := .Etoro
      Description := Exchange.Etoro.toStr ++ " " ++ t.Type'
      ID := "" }

/-- __parse_open_position.  The quote amount adds the amounts of all other
partial positions of the same opening trade; rounding happens only here, at
synthesis. -/
def parse_open_position (positions : List EtoroPositionRow)
    (t : EtoroTransactionRow) (position : EtoroPositionRow) :
    Except String OutputRow := do
  let ticker ← etoro_ticker t.Details t.Asset_type
  validate (almost_identical t.Date position.Open_Date 1 ∧ t.Amount = position.Amount)
    "Open position data is not consistent between Transaction and Position."
  validate (t.Realized_Equity_Change = 0)
    "Stock-like asset Open Transactions cannot change Realized Equity."
  let other_partial_amounts :=
    ((get_all_other_partial_trade_positions positions position).map (·.Amount)).sum
  pure
    { TimestampUTC := t.Date
      Type' := .Buy
      BaseCurrency := ticker
      BaseAmount := t.Units
      From := .Etoro
      To := .Etoro
      ID := make_id t.Position_ID
      Description := Exchange.Etoro.toStr ++ " " ++ position.Action ++ ": " ++ t.Type'
      QuoteAmount := some (roundTo 4 (t.Amount + other_partial_amounts))
      QuoteCurrency := base_fiat }

/-- __parse_close_position.  For a closing transaction the Amount column
holds the profit; the quote amount is the recorded opening amount plus that
profit. -/
def parse_close_position (t : EtoroTransactionRow) (position : EtoroPositionRow) :
    Except String OutputRow := do
  let ticker ← etoro_ticker t.Details t.Asset_type
  validate (almost_identical t.Date position.Close_Date 1 ∧ t.Amount = position.Profit)
    "Data is not consistent between Transaction and Position."
  validate (t.Amount = t.Realized_Equity_Change)
    "Transaction close amount is not equal to equity change."
  pure
    { TimestampUTC := t.Date
      Type' := .Sell
      BaseCurrency := ticker
      BaseAmount := some position.Units
      QuoteCurrency := base_fiat
      From := .Etoro
      To := .Etoro
      ID := make_id t.Position_ID
      Description := Exchange.Etoro.toStr ++ " " ++ position.Action ++ ": " ++ t.Type'
      QuoteAmount := some (roundTo 4 (position.Amount + t.Amount)) }

/-- Parse of the Details field of a stock split transaction against the
pattern caret (word chars) space (digits) colon (digits) dollar, with the
first number the split-to and the second the split-from factor. -/
def parse_split_details (s : String) : Option (String × ℕ × ℕ) :=
  match splitOnChar ' ' s.data with
  | [w, r] =>
    if w ≠ [] ∧ w.all isWordChar then
      match splitOnChar ':' r with
      | [a, b] =>
        match charsToNat? a, charsToNat? b with
        | some x, some y => some (⟨w⟩, x, y)
        | _, _ => none
      | _ => none
    else none
  | _ => none

/-- __parse_stock_split.  The newly issued share count is derived because
the source never states it; rounding to eight places happens at synthesis. -/
def parse_stock_split (txs : List EtoroTransactionRow)
    (t : EtoroTransactionRow) (position : EtoroPositionRow) :
    Except String OutputRow := do
  validate (t.Amount = 0 ∧ t.Units = none ∧ t.Realized_Equity_Change = 0 ∧ t.Balance = 0)
    "Unexpected data in stock split transaction."
  match parse_split_details t.Details with
  | none => .error "The transaction information for a stock split is incorrect."
  | some td => do
    let ticker ← etoro_ticker td.1 t.Asset_type
    validate (td.2.2 = 1) "Only simple x:1 stock splits are supported."
    validate ((get_transactions_of_type txs position.Index "corp action: Split").length = 1)
      "Only one stock split per Position ID is supported."
    pure
      { TimestampUTC := t.Date
        From := .Etoro
        To := .Etoro
        ID := make_id t.Position_ID
        Description := Exchange.Etoro.toStr ++ " " ++ position.Action ++ ": " ++ t.Type'
        Type' := .ChainSplit
        BaseAmount := some (roundTo 8 (position.Units - position.Units / (td.2.1 : ℚ)))
        BaseCurrency := ticker }

/-- __parse_dividend. -/
def parse_dividend (t : EtoroTransactionRow) : Except String OutputRow := do
  validate (t.Units = none) "Dividend cannot have units."
  pure
    { TimestampUTC := t.Date
      Type' := .FiatDeposit
      BaseCurrency := base_fiat
      BaseAmount := some t.Amount
      From := .Dividends
      To := .Etoro
      ID := make_id t.Position_ID
      Description := Exchange.Etoro.toStr ++ " " ++ t.Type' ++ ": " ++ t.Details }

/-- __parse_cfd_open_position: validated and dropped. -/
def parse_cfd_open_position (t : EtoroTransactionRow) :
    Except String (Option OutputRow) := do
  validate (t.Realized_Equity_Change = 0)
    "CFD Open Transactions with opening Realized Equity Change are not supported at this time."
  pure none

def get_original_cfd_position_info (position : EtoroPositionRow) : String :=
  let leverage := if position.Leverage = 1 then "without leverage"
    else "with " ++ ratStr position.Leverage ++ "x leverage"
  position.Action ++ " on " ++ convert_timestamp_to_string position.Open_Date ++ " " ++ leverage

/-- __parse_cfd_rollover_fee. -/
def parse_cfd_rollover_fee (t : EtoroTransactionRow) (position : EtoroPositionRow) :
    Except String OutputRow := do
  validate (t.Amount = t.Realized_Equity_Change ∧ t.Amount < 0 ∧ t.Units = none)
    "CFD rollover fee transaction has unexpected values."
  pure
    { Type' := .RealizedLoss
      BaseCurrency := base_fiat
      BaseAmount := some t.Amount
      From := .Etoro
      To := .CFDs
      ID := make_id t.Position_ID
      Description := Exchange.Etoro.toStr ++ " " ++ t.Asset_type ++ " " ++ t.Details
        ++ " for: " ++ get_original_cfd_position_info position
      TimestampUTC := t.Date }

/-- __parse_cfd_close_position. -/
def parse_cfd_close_position (t : EtoroTransactionRow) (position : EtoroPositionRow) :
    Except String OutputRow := do
  validate (t.Amount = position.Profit)
    "CFD closing transaction is not consistent with position entry."
  validate (t.Amount = t.Realized_Equity_Change) "CFD closing position is inconsistent."
  let is_profit := 0 < t.Amount
  pure
    { TimestampUTC := t.Date
      Type' := if is_profit then .RealizedProfit else .RealizedLoss
      ID := make_id t.Position_ID
      Description := Exchange.Etoro.toStr ++ " " ++ t.Asset_type ++ " " ++ t.Type'
        ++ " for: " ++ get_original_cfd_position_info position
      BaseCurrency := base_fiat
      BaseAmount := some |t.Amount|
      From := if is_profit then .CFDs else .Etoro
      To := if is_profit then .Etoro else .CFDs }

/-- __parse_transaction: the dispatch over transaction type, in source
order.  The Withdraw Fee advisory warning does not affect the produced rows
and is modelled by the warnings component. -/
def parse_transaction (txs : List EtoroTransactionRow)
    (positions : List EtoroPositionRow) (t : EtoroTransactionRow)
    (position : Option EtoroPositionRow) : Except String (Option OutputRow) := do
  validate (t.NWA = 0) "What is NWA? It is always 0.00 in my case."
  if t.Type' = "Edit Stop Loss" then
    pure none
  else do
  validate (position.all (fun p => t.Asset_type = p.Type') = true)
    "Asset type from transactions and positions should be the same."
  if t.Type' = "Withdraw Fee" then
    pure none
  else if position = none ∧ t.Type' = "Deposit" then
    (parse_deposit_or_withdrawal t true).map some
  else if position = none ∧ t.Type' = "Withdraw Request" then
    (parse_deposit_or_withdrawal t false).map some
  else if position = none ∧ t.Type' = "Interest Payment" then
    (parse_interest_payment t).map some
  else
    match position with
    | some p =>
      if t.Asset_type ≠ "CFD" then
        if t.Type' = "Open Position" then (parse_open_position positions t p).map some
        else if t.Type' = "Position closed" then (parse_close_position t p).map some
        else if t.Type' = "corp action: Split" then (parse_stock_split txs t p).map some
        else if t.Type' = "Dividend" then (parse_dividend t).map some
        else .error "cannot be parsed"
      else
        if t.Type' = "Open Position" then parse_cfd_open_position t
        else if t.Type' = "Rollover Fee" then (parse_cfd_rollover_fee t p).map some
        else if t.Type' = "Position closed" then (parse_cfd_close_position t p).map some
        else .error "cannot be parsed"
    | none => .error "cannot be parsed"

/-- __parse: validate the closed positions, then walk the activity rows in
sheet order, appending each produced row.  No sorting happens anywhere in
this parser; the output order is the input order. -/
def parse (txs : List EtoroTransactionRow) (positions : List EtoroPositionRow) :
    Except String (List OutputRow) := do
  validate_positions txs positions
  let step := fun (acc : List OutputRow) (t : EtoroTransactionRow) => do
    let position ← get_one_by_key positions t.Position_ID
    let row_data ← parse_transaction txs positions t position
    pure (match row_data with
      | some r => acc ++ [r]
      | none => acc)
  txs.foldlM step []

end Etoro

/-! ## parsers/ig/IgSharesDataParser.py: the auxiliary record linker

A TransactionHistory row, per the TransactionRow named tuple of
parsers/ig/types.py.  The Summary cell is NaN (none) for the mislabelled fee
rows.  Only fields that __add_transactions_to_trade and its validate read
are modelled with their exact types; the remaining cells do not influence
the linking. -/

structure IgTransactionRow where
  Index : ℕ
  Summary : Option String
  MarketName : String
  Transaction_type : String
  Open_level : ℚ
  Close_level : ℚ
  Size : Option ℚ
  Currency : String
  PL_Amount : ℚ
  Period : Option ℚ
  Cash_transaction : Bool
  CurrencyIsoCode : String
deriving DecidableEq

/-- The Trade aggregate of parsers/ig/types.py: one primary trade row plus
the auxiliary transactions linked to it, one optional slot per role.  The
primary TradeRow is represented by its Order_ID, the only field the linker
reads. -/
structure IgTrade where
  orderId : String
  ConsiderationTx : Option IgTransactionRow := none
  CommissionTx : Option IgTransactionRow := none
  FeeTx : Option IgTransactionRow := none
deriving DecidableEq

namespace Ig

/-- An auxiliary candidate: the transaction MarketName contains the order id
of the primary trade as a substring. -/
def matches_order (orderId : String) (t : IgTransactionRow) : Bool :=
  strContains t.MarketName orderId

/-- The loop body of __add_transactions_to_trade: validate the fixed-value
cells (the Close_level equation is duplicated in the source, sic), then
classify the record into a role, erroring when the role is already taken or
no dispatch rule matches. -/
def classify_transaction (trade : IgTrade) (t : IgTransactionRow) :
    Except String IgTrade := do
  validate (t.Close_level = 0 ∧ t.Close_level = 0 ∧ t.Cash_transaction = false
      ∧ t.Size = none ∧ t.Period = none)
    "Some transaction fields have specific values and I do not have any examples of different values."
  if t.Summary = some "Client Consideration" ∧ trade.ConsiderationTx = none then
    pure { trade with ConsiderationTx := some t }
  else if t.Summary = some "Share Dealing Commissions" ∧ trade.CommissionTx = none then
    pure { trade with CommissionTx := some t }
  else if t.Summary = none ∧ strContains t.MarketName " Fee " = true ∧ trade.FeeTx = none then
    pure { trade with FeeTx := some t }
  else
    .error "Unrecognised transaction type or duplicated transaction type data."

/-- __add_transactions_to_trade: select every candidate from the shared
transactions pool, drop each from the pool at the moment it is matched, and
classify it.  Returns the built trade group, the consumed records, and the
remaining pool. -/
def add_transactions_to_trade (orderId : String) (pool : List IgTransactionRow) :
    Except String (IgTrade × List IgTransactionRow × List IgTransactionRow) := do
  let matched := pool.filter (matches_order orderId)
  let remaining := pool.filter (fun t => !(matches_order orderId t))
  let trade ← matched.foldlM classify_transaction { orderId := orderId }
  pure (trade, matched, remaining)

/-- The per-trade linking pass of __parse: each trade row links (and
consumes) its auxiliary records from the shared pool in file order. -/
def link_trades : List String → List IgTransactionRow →
    Except String (List (IgTrade × List IgTransactionRow) × List IgTransactionRow)
  | [], pool => .ok ([], pool)
  | orderId :: rest, pool => do
    let r ← add_transactions_to_trade orderId pool
    let rr ← link_trades rest r.2.2
    pure ((r.1, r.2.1) :: rr.1, rr.2)

end Ig

/-! ## parsers/ibkr/IbkrDataParser.py: stock and derivative trades -/

inductive IbkrCode
  | L | C | P | O | Ep | FPA
deriving DecidableEq

/-- A row of a Trades table for stocks or options, per the
StocksAndDerivativesTradesRow named tuple of parsers/ibkr/types.py. -/
structure StocksAndDerivativesTradesRow where
  DataDiscriminator : String
  Currency : String
  Symbol : String
  Date_Time : DateTime
  Quantity : ℚ
  T__Price : ℚ
  C__Price : ℚ
  Proceeds : ℚ
  Comm_Fee : ℚ
  Basis : ℚ
  Realized_P_L : ℚ
  Realized_P_L_pct : ℚ
  MTM_P_L : ℚ
  Code : List IbkrCode
deriving DecidableEq

namespace Ibkr

def ibkr_ticker (ticker : String) (asset_type : String) : Except String String :=
  parse_ticker ticker .Ibkr asset_type

/-- __validate_allowed_codes. -/
def validate_allowed_codes (codes allowed : List IbkrCode) (context_name : String) :
    Except String Unit :=
  validate (∀ c ∈ codes, c ∈ allowed)
    ("The only codes implemented for " ++ context_name ++ " are restricted.")

/-- __parse_stock_or_derivative_opening_trade. -/
def parse_opening_trade (row : StocksAndDerivativesTradesRow) (asset_type : String) :
    Except String OutputRow := do
  validate_allowed_codes row.Code [.O, .P, .FPA] (asset_type ++ " Opening Trades")
  validate (row.Realized_P_L = 0 ∧ row.Realized_P_L_pct = 0)
    (asset_type ++ " Opening Trade cannot have Realized Profit")
  validate (0 < row.Quantity ∧ row.Proceeds < 0 ∧ row.Comm_Fee ≤ 0 ∧ 0 < row.Basis)
    (asset_type ++ " Opening Trade has to have values set with expected signs.")
  let ticker ← ibkr_ticker row.Symbol asset_type
  pure
    { TimestampUTC := row.Date_Time
      Type' := .Buy
      BaseCurrency := ticker
      BaseAmount := some row.Quantity
      QuoteCurrency := row.Currency
      QuoteAmount := some |row.Proceeds|
      FeeCurrency := row.Currency
      FeeAmount := some |row.Comm_Fee|
      From := .Ibkr
      To := .Ibkr
      Description := Exchange.Ibkr.toStr ++ " " ++ asset_type ++ " Trade"
      ReferencePricePerUnit := some (roundTo 6 |row.Proceeds / row.Quantity|)
      ReferencePriceCurrency := row.Currency }

/-- __parse_stock_or_derivative_closing_trade.  The option-lapse advisory
warning does not affect the produced row. -/
def parse_closing_trade (row : StocksAndDerivativesTradesRow) (asset_type : String) :
    Except String OutputRow := do
  validate_allowed_codes row.Code [.C, .P, .Ep, .FPA] (asset_type ++ " Closing Trades")
  if IbkrCode.Ep ∈ row.Code then do
    validate (asset_type = "Option") "Only Option can be expired."
    validate (row.Quantity < 0 ∧ row.Proceeds = 0 ∧ row.Comm_Fee = 0 ∧ row.Basis < 0)
      "Option Lapse has to have correct values."
  else do
    validate (row.Quantity < 0 ∧ 0 < row.Proceeds ∧ row.Comm_Fee ≤ 0 ∧ row.Basis < 0)
      (asset_type ++ " Closing Trade has to have values set with expected signs.")
    validate (0 < row.Proceeds + row.Comm_Fee)
      ("Selling " ++ asset_type ++ " for less than the fee is not implemented.")
  let ticker ← ibkr_ticker row.Symbol asset_type
  pure
    { TimestampUTC := row.Date_Time
      Type' := .Sell
      BaseCurrency := ticker
      BaseAmount := some |row.Quantity|
      FeeCurrency := row.Currency
      FeeAmount := some |row.Comm_Fee|
      From := .Ibkr
      To := .Ibkr
      Description := Exchange.Ibkr.toStr ++ " " ++ asset_type ++ " Trade"
      ReferencePricePerUnit := some (roundTo 6 |row.Proceeds / row.Quantity|)
      ReferencePriceCurrency := row.Currency
      QuoteAmount := some (row.Proceeds + row.Comm_Fee)
      QuoteCurrency := row.Currency }

/-- The per-row body of __parse_stocks_and_derivatives: the order
discriminator check, the basis consistency check (applied to every row,
opening or closing, with absolute values on both sides and equality after
rounding to four decimal places), then the dispatch on the O and C codes. -/
def parse_stocks_row (row : StocksAndDerivativesTradesRow) (asset_type : String) :
    Except String OutputRow := do
  validate (row.DataDiscriminator = "Order")
    (asset_type ++ " Trade fields should be consistent.")
  validate (roundTo 4 |row.Basis| = roundTo 4 |row.Proceeds - row.Realized_P_L + row.Comm_Fee|)
    (asset_type ++ " Trade should have its Basis consistent with other fields.")
  if IbkrCode.O ∈ row.Code then
    parse_opening_trade row asset_type
  else if IbkrCode.C ∈ row.Code then
    parse_closing_trade row asset_type
  else
    .error ("Only opening and closing " ++ asset_type ++ " Trades are allowed.")

end Ibkr

/-! ## parsers/schwab/SchwabDataParser.py -/

structure BrokerageRow where
  Date : DateTime
  Action : String
  Symbol : Option String
  Description : String
  Quantity : Option ℤ
  Price : Option ℚ
  Fees : Option ℚ
  Amount : Option ℚ
deriving DecidableEq

structure EquityAwardRow where
  Date : DateTime
  Action : String
  Symbol : String
  Description : String
  Quantity : ℤ
  AwardDate : DateTime
  FairMarketValuePrice : ℚ
  SharesSoldWithheldForTaxes : ℤ
  NetSharesDeposited : ℤ
  Taxes : ℚ
deriving DecidableEq

namespace Schwab

def base_fiat : String := "USD"

def schwab_ticker (ticker : String) : Except String String :=
  parse_ticker ticker .Schwab "Stock"

/-- The ordering by which __transform_data sorts before returning: the key
is the TimestampUTC attribute of the constructed rows, which pydantic has
already turned into its %Y-%m-%d %H:%M:%S string, compared as Python
compares strings. -/
def rowTimestampLe (a b : OutputRow) : Prop :=
  strLeB (convert_timestamp_to_string a.TimestampUTC)
    (convert_timestamp_to_string b.TimestampUTC) = true

instance : DecidableRel rowTimestampLe := fun _ _ => by
  unfold rowTimestampLe; infer_instance

/-- The equity-award loop of __transform_data: a Lapse makes a fiat deposit
for the fair market value plus a buy one hour later; anything else aborts. -/
def equity_award_rows (row : EquityAwardRow) : Except String (List OutputRow) := do
  if row.Action = "Lapse" then do
    let ticker ← schwab_ticker row.Symbol
    pure
      [{ TimestampUTC := row.Date
         Type' := .FiatDeposit
         BaseCurrency := base_fiat
         BaseAmount := some (row.FairMarketValuePrice * (row.NetSharesDeposited : ℚ))
         From := .Bank
         To := .Schwab
         Description := "Modeled from fair market value of " ++ intDigitsStr row.NetSharesDeposited
           ++ " shares of " ++ row.Symbol ++ " at " ++ ratStr row.FairMarketValuePrice
           ++ " per share, to keep fiat total consistent." },
       { TimestampUTC := row.Date.addHours 1
         Type' := .Buy
         BaseCurrency := ticker
         BaseAmount := some (row.NetSharesDeposited : ℚ)
         QuoteCurrency := base_fiat
         QuoteAmount := some (row.FairMarketValuePrice * (row.NetSharesDeposited : ℚ))
         From := .Schwab
         To := .Schwab
         Description := "Lapse of " ++ intDigitsStr row.NetSharesDeposited
           ++ " Restricted Stock Units (RSU) of " ++ row.Symbol ++ " at "
           ++ ratStr row.FairMarketValuePrice ++ " per share."
         ReferencePricePerUnit := some row.FairMarketValuePrice
         ReferencePriceCurrency := base_fiat }]
  else
    .error ("Unsupported action " ++ row.Action ++ " encountered in equity awards data.")

/-- The brokerage loop of __transform_data. -/
def brokerage_rows (row : BrokerageRow) : Except String (List OutputRow) := do
  if row.Action = "Sell" then do
    let ticker ← schwab_ticker (row.Symbol.getD "")
    pure
      [{ TimestampUTC := row.Date.addHours 2
         Type' := .Sell
         BaseCurrency := ticker
         BaseAmount := row.Quantity.map (fun q => (q : ℚ))
         QuoteCurrency := base_fiat
         QuoteAmount := row.Amount
         FeeCurrency := base_fiat
         FeeAmount := row.Fees
         From := .Schwab
         To := .Schwab
         Description := row.Description
         ReferencePricePerUnit := row.Price
         ReferencePriceCurrency := base_fiat }]
  else if row.Action = "Service Fee" then
    pure
      [{ TimestampUTC := row.Date.addHours 2
         Type' := .Fee
         BaseCurrency := base_fiat
         BaseAmount := row.Amount.map (fun a => |a|)
         From := .Schwab
         To := .Schwab
         Description := row.Description }]
  else if row.Action = "Wire Sent" ∨ row.Action = "MoneyLink Transfer" then
    pure
      [{ TimestampUTC := row.Date.addHours 3
         Type' := .FiatWithdrawal
         BaseCurrency := base_fiat
         BaseAmount := row.Amount.map (fun a => |a|)
         From := .Schwab
         To := .Bank
         Description := row.Description }]
  else if row.Action = "Credit Interest" then
    pure
      [{ TimestampUTC := row.Date
         Type' := .Interest
         BaseCurrency := base_fiat
         BaseAmount := row.Amount
         From := .Schwab
         To := .Schwab
         Description := row.Description }]
  else if row.Action = "Stock Plan Activity" then
    pure []
  else
    .error ("Unsupported action " ++ row.Action ++ " encountered in brokerage data.")

/-- __transform_data: build every row, then sort by the stored timestamp
string (Python sorted is a stable sort; insertion sort is its model). -/
def transform_data (equity_awards : List EquityAwardRow) (brokerage : List BrokerageRow) :
    Except String (List OutputRow) := do
  let eq ← equity_awards.foldlM (fun acc r => (equity_award_rows r).map (acc ++ ·)) []
  let br ← brokerage.foldlM (fun acc r => (brokerage_rows r).map (acc ++ ·)) []
  pure (List.insertionSort rowTimestampLe (eq ++ br))

end Schwab

/-! ## Concrete fixtures used by witnesses and counterexamples -/

/-- An IG auxiliary transaction whose MarketName contains the order id
ABC123, labelled as the consideration of that trade. -/
def c1AuxRow : IgTransactionRow :=
  { Index := 10, Summary := some "Client Consideration",
    MarketName := "SomeStock Inc considerations ABC123", Transaction_type := "WITH",
    Open_level := 0, Close_level := 0, Size := none, Currency := "$",
    PL_Amount := -100, Period := none, Cash_transaction := false,
    CurrencyIsoCode := "USD" }

/-- An IG transaction unrelated to order ABC123. -/
def c1OtherRow : IgTransactionRow :=
  { Index := 11, Summary := some "Cash In", MarketName := "Cash In",
    Transaction_type := "DEPO", Open_level := 0, Close_level := 0, Size := none,
    Currency := "$", PL_Amount := 500, Period := none, Cash_transaction := false,
    CurrencyIsoCode := "USD" }

/-- An eToro deposit dated 2021-01-02 (appears first in the sheet). -/
def c2LaterDeposit : EtoroTransactionRow :=
  { Index := 0, Date := { year := 2021, month := 1, day := 2 }, Type' := "Deposit",
    Details := "", Amount := 1000, Units := none, Realized_Equity_Change := 1000,
    Balance := 1000, Position_ID := "", Asset_type := "", NWA := 0 }

/-- An eToro deposit dated 2021-01-01 (appears second in the sheet). -/
def c2EarlierDeposit : EtoroTransactionRow :=
  { Index := 1, Date := { year := 2021, month := 1, day := 1 }, Type' := "Deposit",
    Details := "", Amount := 500, Units := none, Realized_Equity_Change := 500,
    Balance := 1500, Position_ID := "", Asset_type := "", NWA := 0 }

/-- A Schwab Credit Interest brokerage row. -/
def c2InterestRow : BrokerageRow :=
  { Date := { year := 2022, month := 5, day := 6 }, Action := "Credit Interest",
    Symbol := none, Description := "SCHWAB1 INT", Quantity := none, Price := none,
    Fees := none, Amount := some (3 / 2) }

def fixtureDate : DateTime := { year := 2021, month := 3, day := 5, hour := 14, minute := 30 }

def fixtureOpenDate : DateTime := { year := 2021, month := 2, day := 1, hour := 9 }

/-- Closing transaction of the amended Scenario B: the Amount column holds
the profit of 50. -/
def c4CloseTx : EtoroTransactionRow :=
  { Index := 5, Date := fixtureDate, Type' := "Position closed", Details := "ABC",
    Amount := 50, Units := none, Realized_Equity_Change := 50, Balance := 1050,
    Position_ID := "123", Asset_type := "Stock", NWA := 0 }

/-- The matching closed position: opening amount recorded as 500, ten units. -/
def c4Position : EtoroPositionRow :=
  { Index := 123, Action := "Buy", Amount := 500, Units := 10,
    Open_Date := fixtureOpenDate, Close_Date := fixtureDate, Leverage := 1,
    Profit := 50, Rollover_Fees_and_Dividends := 0, Type' := "Stock" }

def c4ExpectedRow : OutputRow :=
  { TimestampUTC := fixtureDate, Type' := .Sell, BaseCurrency := "ABC:STOCK",
    BaseAmount := some 10, QuoteCurrency := "USD", QuoteAmount := some 550,
    From := .Etoro, To := .Etoro, ID := "eToro:123",
    Description := "eToro Buy: Position closed" }

/-- Scenario B exactly as the claim states it: the opening amount recorded
as -500 (and so the open transaction amount -500). -/
def c4NegPosition : EtoroPositionRow :=
  { Index := 124, Action := "Buy", Amount := -500, Units := 10,
    Open_Date := fixtureOpenDate, Close_Date := fixtureDate, Leverage := 1,
    Profit := 50, Rollover_Fees_and_Dividends := 0, Type' := "Stock" }

def c4NegTx : EtoroTransactionRow :=
  { Index := 6, Date := fixtureDate, Type' := "Position closed", Details := "ABC",
    Amount := 50, Units := none, Realized_Equity_Change := 50, Balance := 1050,
    Position_ID := "124", Asset_type := "Stock", NWA := 0 }

/-- A partial position and its sibling: same open date, same type,
different position ids. -/
def c5posA : EtoroPositionRow :=
  { Index := 11, Action := "Buy", Amount := 100, Units := 7,
    Open_Date := fixtureOpenDate, Close_Date := fixtureDate, Leverage := 1,
    Profit := 3, Rollover_Fees_and_Dividends := 0, Type' := "Stock" }

def c5posB : EtoroPositionRow :=
  { Index := 12, Action := "Buy", Amount := 200, Units := 14,
    Open_Date := fixtureOpenDate, Close_Date := fixtureDate, Leverage := 1,
    Profit := 6, Rollover_Fees_and_Dividends := 0, Type' := "Stock" }

def c5openTx : EtoroTransactionRow :=
  { Index := 7, Date := fixtureOpenDate, Type' := "Open Position", Details := "ABC",
    Amount := 100, Units := some 7, Realized_Equity_Change := 0, Balance := 900,
    Position_ID := "11", Asset_type := "Stock", NWA := 0 }

def c5row : OutputRow :=
  { TimestampUTC := fixtureOpenDate, Type' := .Buy, BaseCurrency := "ABC:STOCK",
    BaseAmount := some 7, QuoteCurrency := "USD", QuoteAmount := some 300,
    From := .Etoro, To := .Etoro, ID := "eToro:11",
    Description := "eToro Buy: Open Position" }

/-- An opening-trade activity row for position 21, and that position. -/
def c6openTx : EtoroTransactionRow :=
  { Index := 8, Date := fixtureOpenDate, Type' := "Open Position", Details := "ABC",
    Amount := 100, Units := some 7, Realized_Equity_Change := 0, Balance := 900,
    Position_ID := "21", Asset_type := "Stock", NWA := 0 }

def c6pos : EtoroPositionRow :=
  { Index := 21, Action := "Buy", Amount := 100, Units := 7,
    Open_Date := fixtureOpenDate, Close_Date := fixtureDate, Leverage := 1,
    Profit := 3, Rollover_Fees_and_Dividends := 0, Type' := "Stock" }

/-- A closed position with no opening trade in the source window. -/
def c6noOpenPos : EtoroPositionRow :=
  { Index := 22, Action := "Buy", Amount := 100, Units := 7,
    Open_Date := fixtureOpenDate, Close_Date := fixtureDate, Leverage := 1,
    Profit := 3, Rollover_Fees_and_Dividends := 0, Type' := "Stock" }

/-- Scenario D: a stock split transaction for position 31 with details
ABC 2:1, and the position with 100 units. -/
def c9dTx : EtoroTransactionRow :=
  { Index := 9, Date := fixtureDate, Type' := "corp action: Split", Details := "ABC 2:1",
    Amount := 0, Units := none, Realized_Equity_Change := 0, Balance := 0,
    Position_ID := "31", Asset_type := "Stock", NWA := 0 }

def c9dPos : EtoroPositionRow :=
  { Index := 31, Action := "Buy", Amount := 100, Units := 100,
    Open_Date := fixtureOpenDate, Close_Date := fixtureDate, Leverage := 1,
    Profit := 3, Rollover_Fees_and_Dividends := 0, Type' := "Stock" }

def c9dRow : OutputRow :=
  { TimestampUTC := fixtureDate, Type' := .ChainSplit, BaseCurrency := "ABC:STOCK",
    BaseAmount := some 50, From := .Etoro, To := .Etoro, ID := "eToro:31",
    Description := "eToro Buy: corp action: Split" }

/-- A split whose derived share count does not survive the eight-place
rounding exactly: one unit split 3:1. -/
def c9cTx : EtoroTransactionRow :=
  { Index := 10, Date := fixtureDate, Type' := "corp action: Split", Details := "ABC 3:1",
    Amount := 0, Units := none, Realized_Equity_Change := 0, Balance := 0,
    Position_ID := "32", Asset_type := "Stock", NWA := 0 }

def c9cPos : EtoroPositionRow :=
  { Index := 32, Action := "Buy", Amount := 100, Units := 1,
    Open_Date := fixtureOpenDate, Close_Date := fixtureDate, Leverage := 1,
    Profit := 3, Rollover_Fees_and_Dividends := 0, Type' := "Stock" }

/-- Scenario C opening option row: quantity 5, proceeds -500, commission
-10, basis 510. -/
def c3OpeningRow : StocksAndDerivativesTradesRow :=
  { DataDiscriminator := "Order", Currency := "USD", Symbol := "ABC 210917C150",
    Date_Time := fixtureDate, Quantity := 5, T__Price := 1, C__Price := 1,
    Proceeds := -500, Comm_Fee := -10, Basis := 510, Realized_P_L := 0,
    Realized_P_L_pct := 0, MTM_P_L := 0, Code := [.O] }

/-- The same row with basis 500: the consistency check fails. -/
def c3BadBasisRow : StocksAndDerivativesTradesRow :=
  { DataDiscriminator := "Order", Currency := "USD", Symbol := "ABC 210917C150",
    Date_Time := fixtureDate, Quantity := 5, T__Price := 1, C__Price := 1,
    Proceeds := -500, Comm_Fee := -10, Basis := 500, Realized_P_L := 0,
    Realized_P_L_pct := 0, MTM_P_L := 0, Code := [.O] }

/-- The same row with basis 510.00004: the spec's exact basis equation
fails, but the code's four-decimal rounded comparison accepts it. -/
def c3RoundingRow : StocksAndDerivativesTradesRow :=
  { DataDiscriminator := "Order", Currency := "USD", Symbol := "ABC 210917C150",
    Date_Time := fixtureDate, Quantity := 5, T__Price := 1, C__Price := 1,
    Proceeds := -500, Comm_Fee := -10, Basis := 510.00004, Realized_P_L := 0,
    Realized_P_L_pct := 0, MTM_P_L := 0, Code := [.O] }

/-! ## General lemmas about the embedding -/

theorem validate_bind {c : Prop} [Decidable c] {e : String} {α : Type}
    (k : Unit → Except String α) :
    (validate c e >>= k) = if c then k () else .error e := by
  unfold validate; split_ifs <;> rfl

theorem bind_ite {c : Prop} [Decidable c] {α β : Type} (x y : Except String α)
    (k : α → Except String β) :
    ((if c then x else y) >>= k) = if c then x >>= k else y >>= k := by
  split_ifs <;> rfl

theorem validate_isOk_false {c : Prop} [Decidable c] {e : String} (hc : ¬ c) :
    (validate c e).isOk = false := by
  rw [validate, if_neg hc]; rfl

theorem validate_error_of_not {c : Prop} [Decidable c] {e : String} (hc : ¬ c) :
    validate c e = .error e := by
  rw [validate, if_neg hc]

theorem Except_mmap_error {e : String} {A B : Type} (f : A → B) :
    (Except.error e : Except String A).map f = Except.error e := rfl

theorem Except_mmap_ok {A B : Type} {a : A} (f : A → B) :
    (Except.ok a : Except String A).map f = .ok (f a) := rfl

theorem Except_pure_eq {A : Type} (a : A) : (pure a : Except String A) = .ok a := rfl

theorem Except_isOk_error {e : String} {A : Type} :
    (Except.error e : Except String A).isOk = false := rfl

theorem Except_isOk_ok {A : Type} {a : A} : (Except.ok a : Except String A).isOk = true := rfl

/-- Characterization of parse_ticker for an exchange present in the
translation configuration. -/
theorem parse_ticker_characterization :
    ∀ (t : String) (ex : Exchange) (a : String) (tbl : List (String × String)),
      translate_tickers ex = some tbl →
      ((a = "Crypto" → parse_ticker t ex a = .ok ((lookupPairs tbl t).getD t))
       ∧ (a = "Stock" → parse_ticker t ex a = .ok ((lookupPairs tbl t).getD t ++ ":STOCK"))
       ∧ (a = "Option" → parse_ticker t ex a = .ok ("OPT:" ++ (lookupPairs tbl t).getD t))
       ∧ (a ≠ "Crypto" → a ≠ "Stock" → a ≠ "Option" → parse_ticker t ex a =
           .error ("Asset Type " ++ a ++ " does not have a ticker name implemented."))) := by
  intro t ex a tbl hex
  unfold parse_ticker
  rw [hex]
  refine ⟨?_, ?_, ?_, ?_⟩
  · intro ha; subst ha
    cases h : lookupPairs tbl t <;> simp [h, Except.bind]
  · intro ha; subst ha
    cases h : lookupPairs tbl t <;> simp [h, Except.bind]
  · intro ha; subst ha
    cases h : lookupPairs tbl t <;> simp [h, Except.bind]
  · intro h1 h2 h3
    cases h : lookupPairs tbl t <;> simp [h, Except.bind, h1, h2, h3] <;> rfl

/-- The eToro ticker helper never fails: the asset class argument is always
Crypto or Stock, and the eToro translation table exists. -/
theorem etoro_ticker_ok (t a : String) : ∃ v, Etoro.etoro_ticker t a = .ok v := by
  unfold Etoro.etoro_ticker
  by_cases ha : a = "Crypto"
  · rw [if_pos ha]
    exact ⟨_, (parse_ticker_characterization t .Etoro "Crypto" _ rfl).1 rfl⟩
  · rw [if_neg ha]
    exact ⟨_, (parse_ticker_characterization t .Etoro "Stock" _ rfl).2.1 rfl⟩

theorem charListLe_total (a b : List Char) :
    charListLe a b = true ∨ charListLe b a = true := by
  induction a generalizing b with
  | nil => left; rfl
  | cons x xs ih =>
    cases b with
    | nil => right; rfl
    | cons y ys =>
      by_cases h1 : x.toNat < y.toNat
      · left; simp [charListLe, h1]
      · by_cases h2 : y.toNat < x.toNat
        · right; simp [charListLe, h1, h2]
        · rcases ih ys with h | h
          · left; simp [charListLe, h1, h2, h]
          · right; simp [charListLe, h1, h2, h]

theorem charListLe_trans {a b c : List Char} (h1 : charListLe a b = true)
    (h2 : charListLe b c = true) : charListLe a c = true := by
  induction a generalizing b c with
  | nil => rfl
  | cons x xs ih =>
    cases b with
    | nil => simp [charListLe] at h1
    | cons y ys =>
      cases c with
      | nil => simp [charListLe] at h2
      | cons z zs =>
        simp only [charListLe] at h1 h2 ⊢
        split_ifs at h1 h2 ⊢ <;> try omega
        all_goals first
          | rfl
          | (exact ih h1 h2)
          | omega

instance : IsTotal OutputRow Schwab.rowTimestampLe :=
  ⟨fun a b => charListLe_total _ _⟩

instance : IsTrans OutputRow Schwab.rowTimestampLe :=
  ⟨fun _ _ _ h1 h2 => charListLe_trans h1 h2⟩

theorem digitChar_isDigit (n : ℕ) : (digitChar n).isDigit = true := by
  unfold digitChar; split_ifs <;> decide

theorem mem_natDigitsAux {fuel n : ℕ} {acc : List Char} {c : Char}
    (h : c ∈ natDigitsAux fuel n acc) : c.isDigit = true ∨ c ∈ acc := by
  induction fuel generalizing n acc with
  | zero => right; simpa [natDigitsAux] using h
  | succ fuel ih =>
    rw [natDigitsAux] at h
    split at h
    · rcases List.mem_cons.mp h with h | h
      · left; exact h ▸ digitChar_isDigit _
      · right; exact h
    · rcases ih h with h' | h'
      · left; exact h'
      · rcases List.mem_cons.mp h' with h' | h'
        · left; exact h' ▸ digitChar_isDigit _
        · right; exact h'

theorem mem_natDigits {n : ℕ} {c : Char} (h : c ∈ natDigits n) : c.isDigit = true := by
  rcases mem_natDigitsAux h with h' | h'
  · exact h'
  · simp at h'

/-- Characters that the positional float rendering may produce: decimal
digits, a sign, a decimal point — in particular never an exponent letter. -/
theorem mem_padDigitsTo {s : List Char} {k : ℕ} {c : Char}
    (h : c ∈ padDigitsTo s k) : c = '0' ∨ c ∈ s := by
  unfold padDigitsTo at h
  rcases List.mem_append.mp h with h' | h'
  · left; exact List.eq_of_mem_replicate h'
  · right; exact h'

theorem format_float_positional_chars (d : Dec) (c : Char)
    (h : c ∈ (format_float_positional d).data) :
    c.isDigit = true ∨ c = '-' ∨ c = '.' := by
  simp only [format_float_positional] at h
  split_ifs at h
  all_goals try (rcases List.mem_append.mp h with h | h)
  all_goals try (rcases List.mem_append.mp h with h | h)
  all_goals try (rcases List.mem_append.mp h with h | h)
  all_goals
    solve
      | (subst h; decide)
      | (have hc : c = '-' := by simpa using h
         subst hc; decide)
      | (have hc : c = '.' := by simpa using h
         subst hc; decide)
      | (have hc : c = '0' := by simpa using h
         subst hc; decide)
      | (left; exact mem_natDigits h)
      | (left; exact mem_natDigits (show c ∈ natDigits _ by simpa using h))
      | (obtain ⟨-, hc⟩ := h; subst hc; decide)
      | (have hc := List.eq_of_mem_replicate h; subst hc; decide)
      | (rcases mem_padDigitsTo h with h' | h' ;
          solve
            | (subst h'; decide)
            | (left; exact mem_natDigits h'))
      | (rcases mem_padDigitsTo (show c ∈ padDigitsTo _ _ by simpa using h) with h' | h' ;
          solve
            | (subst h'; decide)
            | (left; exact mem_natDigits h'))
      | (simp at h)

/-! ## Claim C10: output row field normalization -/

/-- Claim C10: every canonical ledger entry is normalized exactly once at
construction: the timestamp is stored as its %Y-%m-%d %H:%M:%S string with
sub-second precision discarded, and each of the three amounts is stored as
a positional decimal string (digits, sign, decimal point only — never
scientific notation), the empty string when the amount is missing. -/
theorem c10_output_row_normalization :
    ∀ (ts : DateTime) (base quote fee : Option Dec),
      (buildStoredOutputRow ts base quote fee).TimestampUTC = convert_timestamp_to_string ts
      ∧ (∀ m : ℕ, convert_timestamp_to_string { ts with micro := m } =
          convert_timestamp_to_string ts)
      ∧ (buildStoredOutputRow ts base quote fee).BaseAmount =
          avoid_scientific_float_notation base
      ∧ (buildStoredOutputRow ts base quote fee).QuoteAmount =
          avoid_scientific_float_notation quote
      ∧ (buildStoredOutputRow ts base quote fee).FeeAmount =
          avoid_scientific_float_notation fee
      ∧ avoid_scientific_float_notation none = ""
      ∧ (∀ d : Dec, avoid_scientific_float_notation (some d) = format_float_positional d)
      ∧ (∀ (d : Dec) (c : Char), c ∈ (format_float_positional d).data →
          c.isDigit = true ∨ c = '-' ∨ c = '.') := by
  intro ts base quote fee
  refine ⟨rfl, fun m => rfl, rfl, rfl, rfl, rfl, fun d => rfl, ?_⟩
  exact format_float_positional_chars

/-! ## Claim C8: warning deduplication scope -/

/-- Counterexample to claim C8: the deduplication dict is module level and
never reset, so a second run in the same process (the state threaded on from
the first run) emits nothing for a key the first run already showed, while
the same run alone (from the initial module state) emits it. -/
theorem c8_counterexample :
    (runWarnings ["Dividends"] ((runWarnings ["Dividends"] []).2)).1 = []
    ∧ (runWarnings ["Dividends"] []).1 = ["Dividends"]
    ∧ (runWarnings ["Dividends"] ((runWarnings ["Dividends"] []).2)).1
      ≠ (runWarnings ["Dividends"] []).1 := by
  refine ⟨by decide, by decide, by decide⟩

theorem runWarnings_cons_mem {g : String} {s : List String} (gs : List String)
    (hmem : g ∈ s) : runWarnings (g :: gs) s = runWarnings gs s := by
  simp [runWarnings, show_warning_once, hmem]

theorem runWarnings_cons_not_mem {g : String} {s : List String} (gs : List String)
    (hmem : g ∉ s) :
    runWarnings (g :: gs) s =
      (g :: (runWarnings gs (s ++ [g])).1, (runWarnings gs (s ++ [g])).2) := by
  simp [runWarnings, show_warning_once, hmem]

/-- Claim C8 as amended: within one run each distinct warning key is emitted
at most once, and the deduplication state is process scoped, not run scoped:
a run starting from state s emits exactly its keys not already in s, and
appends them to the state, so a second sequential run in the same process
suppresses exactly the keys earlier runs already showed. -/
theorem c8_amended :
    ∀ (gs s es s' : List String), runWarnings gs s = (es, s') →
      s' = s ++ es ∧ es.Nodup ∧ (∀ g, g ∈ es ↔ g ∈ gs ∧ g ∉ s) := by
  intro gs
  induction gs with
  | nil =>
    intro s es s' h
    rw [runWarnings] at h
    injection h with h1 h2
    subst h1; subst h2
    exact ⟨by simp, List.nodup_nil, by simp⟩
  | cons g gs ih =>
    intro s es s' h
    by_cases hmem : g ∈ s
    · rw [runWarnings_cons_mem gs hmem] at h
      rcases ih s es s' h with ⟨e1, e2, e3⟩
      refine ⟨e1, e2, fun x => ?_⟩
      rw [e3 x]
      constructor
      · rintro ⟨hx1, hx2⟩; exact ⟨List.mem_cons_of_mem _ hx1, hx2⟩
      · rintro ⟨hx1, hx2⟩
        rcases List.mem_cons.mp hx1 with rfl | hx1
        · exact absurd hmem hx2
        · exact ⟨hx1, hx2⟩
    · rw [runWarnings_cons_not_mem gs hmem] at h
      injection h with h1 h2
      subst h1; subst h2
      rcases ih (s ++ [g]) _ _ rfl with ⟨e1, e2, e3⟩
      have hgnotin : g ∉ (runWarnings gs (s ++ [g])).1 := by
        intro hg
        rcases (e3 g).mp hg with ⟨-, hg2⟩
        exact hg2 (by simp)
      refine ⟨?_, ?_, ?_⟩
      · rw [e1]; simp
      · exact List.nodup_cons.mpr ⟨hgnotin, e2⟩
      · intro x
        simp only [List.mem_cons]
        constructor
        · rintro (rfl | hx)
          · exact ⟨Or.inl rfl, hmem⟩
          · rcases (e3 x).mp hx with ⟨hx1, hx2⟩
            exact ⟨Or.inr hx1, fun hxs => hx2 (by simp [hxs])⟩
        · rintro ⟨hx1, hx2⟩
          by_cases hxg : x = g
          · exact Or.inl hxg
          · rcases hx1 with rfl | hx1
            · exact absurd rfl hxg
            · exact Or.inr ((e3 x).mpr ⟨hx1, by simp [hx2, hxg]⟩)

/-- Witness for the amended claim C8 at a concrete two-run sequence. -/
theorem c8_amended_witness :
    (runWarnings ["Dividends", "Stock Splits", "Dividends"] [] =
      (["Dividends", "Stock Splits"], ["Dividends", "Stock Splits"]))
    ∧ (["Dividends", "Stock Splits"] = [] ++ ["Dividends", "Stock Splits"]
        ∧ (["Dividends", "Stock Splits"] : List String).Nodup
        ∧ (∀ g, g ∈ (["Dividends", "Stock Splits"] : List String) ↔
            g ∈ ["Dividends", "Stock Splits", "Dividends"] ∧ g ∉ ([] : List String))) :=
  ⟨by decide, c8_amended ["Dividends", "Stock Splits", "Dividends"] []
    ["Dividends", "Stock Splits"] ["Dividends", "Stock Splits"] (by decide)⟩

/-! ## Claim C7: ticker resolution -/

/-- Counterexample to claim C7 as stated: for an exchange absent from the
translation configuration the lookup itself raises KeyError, so the Stock
branch never returns the suffixed name the claim promises for every input. -/
theorem c7_counterexample :
    parse_ticker "GOOG" Exchange.Bank "Stock" =
      .error "KeyError: exchange missing from translate_tickers" := by decide

/-- Claim C7 as amended: for the exchanges present in the translation
configuration (eToro, IBKR, IG, Schwab), resolution first replaces the raw
name by its mapped symbol when present (otherwise keeps it), then encodes by
asset class: Crypto unchanged, Stock suffixed, Option prefixed, anything
else the unsupported-asset-class failure. -/
theorem c7_amended :
    ∀ (t : String) (ex : Exchange) (a : String) (tbl : List (String × String)),
      translate_tickers ex = some tbl →
      ((a = "Crypto" → parse_ticker t ex a = .ok ((lookupPairs tbl t).getD t))
       ∧ (a = "Stock" → parse_ticker t ex a = .ok ((lookupPairs tbl t).getD t ++ ":STOCK"))
       ∧ (a = "Option" → parse_ticker t ex a = .ok ("OPT:" ++ (lookupPairs tbl t).getD t))
       ∧ (a ≠ "Crypto" → a ≠ "Stock" → a ≠ "Option" → parse_ticker t ex a =
           .error ("Asset Type " ++ a ++ " does not have a ticker name implemented."))) := by
  intro t ex a tbl hex
  exact parse_ticker_characterization t ex a tbl hex

/-- Witness for the amended claim C7: a translated stock name, an
untranslated option name, and an unsupported asset class. -/
theorem c7_amended_witness :
    parse_ticker "VACQ" Exchange.Ibkr "Stock" = .ok "RKLB:STOCK"
    ∧ parse_ticker "XYZ" Exchange.Etoro "Option" = .ok "OPT:XYZ"
    ∧ parse_ticker "ABC" Exchange.Etoro "Bond" =
        .error "Asset Type Bond does not have a ticker name implemented." := by
  refine ⟨?_, ?_, ?_⟩
  · have h := (c7_amended "VACQ" Exchange.Ibkr "Stock" _ rfl).2.1 rfl
    simpa using h
  · have h := (c7_amended "XYZ" Exchange.Etoro "Option" _ rfl).2.2.1 rfl
    simpa using h
  · have h := (c7_amended "ABC" Exchange.Etoro "Bond" _ rfl).2.2.2
      (by decide) (by decide) (by decide)
    simpa using h


theorem Except_error_bind {e : String} {A B : Type} (k : A → Except String B) :
    ((Except.error e : Except String A) >>= k) = Except.error e := rfl

theorem Except_ok_bind {A B : Type} {a : A} (k : A → Except String B) :
    ((Except.ok a : Except String A) >>= k) = k a := rfl

theorem Except_pure_bind {A B : Type} {a : A} (k : A → Except String B) :
    ((pure a : Except String A) >>= k) = k a := rfl

theorem Except_map_error {e : String} {A B : Type} (f : A → B) :
    (f <$> (Except.error e : Except String A)) = Except.error e := rfl

theorem Except_map_ok {A B : Type} {a : A} (f : A → B) :
    (f <$> (Except.ok a : Except String A)) = Except.ok (f a) := rfl

/-- Witness for claim C10 at a concrete construction: the row built from
timestamp 2021-03-04 05:06:07.890123 and base amount -12.345 (decimal
expansion -12345 times 10 to the -3). -/
theorem c10_output_row_normalization_witness :
    buildStoredOutputRow
        { year := 2021, month := 3, day := 4, hour := 5, minute := 6, second := 7,
          micro := 890123 }
        (some { mantissa := -12345, exponent := -3 }) none none =
      { TimestampUTC := "2021-03-04 05:06:07", BaseAmount := "-12.345",
        QuoteAmount := "", FeeAmount := "" }
    ∧ (('1' : Char).isDigit = true ∨ ('1' : Char) = '-' ∨ ('1' : Char) = '.') :=
  ⟨by decide,
   (c10_output_row_normalization
       { year := 2021, month := 3, day := 4, hour := 5, minute := 6, second := 7,
         micro := 890123 }
       (some { mantissa := -12345, exponent := -3 }) none none).2.2.2.2.2.2.2
     { mantissa := -12345, exponent := -3 } '1' (by decide)⟩

/-! ## Claim C1: exactly-once consumption of auxiliary records -/

/-- Claim C1: across one linking pass over the trades, the auxiliary
transactions consumed by the match groups together with the remaining pool
are a permutation of the initial pool: every record is consumed by at most
one group (counted with multiplicity, so no record is assigned twice), and
the total number of consumed records never exceeds the initial pool size. -/
theorem c1_aux_consumed_exactly_once :
    ∀ (orderIds : List String) (pool : List IgTransactionRow)
      (groups : List (IgTrade × List IgTransactionRow))
      (poolFinal : List IgTransactionRow),
      Ig.link_trades orderIds pool = .ok (groups, poolFinal) →
      List.Perm ((groups.map (fun g => g.2)).join ++ poolFinal) pool
      ∧ (∀ t : IgTransactionRow,
          ((groups.map (fun g => g.2)).join).count t ≤ pool.count t)
      ∧ ((groups.map (fun g => g.2)).join).length ≤ pool.length := by
  intro orderIds
  induction orderIds with
  | nil =>
    intro pool groups poolFinal h
    rw [Ig.link_trades] at h
    injection h with h1
    injection h1 with hg hp
    subst hg; subst hp
    exact ⟨by simp, by simp, by simp⟩
  | cons oid rest ih =>
    intro pool groups poolFinal h
    rw [Ig.link_trades, Ig.add_transactions_to_trade] at h
    cases hf : (pool.filter (Ig.matches_order oid)).foldlM Ig.classify_transaction
        { orderId := oid } with
    | error e =>
      rw [hf] at h
      simp only [Except_error_bind, Except_pure_bind, Except_map_error] at h
      exact absurd h (by simp)
    | ok trade =>
      rw [hf] at h
      simp only [Except_ok_bind, Except_pure_bind, Except_map_ok] at h
      cases hr : Ig.link_trades rest (pool.filter (fun t => !(Ig.matches_order oid t))) with
      | error e =>
        rw [hr] at h
        simp only [Except_error_bind, Except_pure_bind, Except_map_error] at h
        exact absurd h (by simp)
      | ok pr =>
        rw [hr] at h
        simp only [Except_ok_bind, Except_pure_bind, Except_map_ok, Except_error_bind] at h
        injection h with h1
        injection h1 with hg hp
        subst hg; subst hp
        rcases ih _ _ _ (by rw [hr]) with ⟨p1, p2, p3⟩
        have hperm : List.Perm
            (pool.filter (Ig.matches_order oid) ++
              pool.filter (fun t => !(Ig.matches_order oid t))) pool :=
          List.filter_append_perm _ pool
        have hmain : List.Perm
            (((((trade, pool.filter (Ig.matches_order oid)) :: pr.1).map
                (fun g => g.2)).join) ++ pr.2) pool := by
          simp only [List.map_cons, List.join_cons, List.append_assoc]
          exact List.Perm.trans (List.Perm.append_left _ p1) hperm
        refine ⟨hmain, ?_, ?_⟩
        · intro t
          have := hmain.count_eq t
          rw [List.count_append] at this
          omega
        · have := hmain.length_eq
          rw [List.length_append] at this
          omega

/-- Witness for claim C1: one trade with order id ABC123 consumes the single
matching consideration record from a pool of two records; the other record
remains. -/
theorem c1_aux_consumed_exactly_once_witness :
    Ig.link_trades ["ABC123"] [c1AuxRow, c1OtherRow] =
      .ok ([({ orderId := "ABC123", ConsiderationTx := some c1AuxRow }, [c1AuxRow])],
        [c1OtherRow])
    ∧ (List.Perm
        (((([({ orderId := "ABC123", ConsiderationTx := some c1AuxRow }, [c1AuxRow])] :
            List (IgTrade × List IgTransactionRow)).map (fun g => g.2)).join) ++ [c1OtherRow])
        [c1AuxRow, c1OtherRow]
      ∧ (∀ t : IgTransactionRow,
          ((([({ orderId := "ABC123", ConsiderationTx := some c1AuxRow }, [c1AuxRow])] :
            List (IgTrade × List IgTransactionRow)).map (fun g => g.2)).join).count t ≤
            ([c1AuxRow, c1OtherRow] : List IgTransactionRow).count t)
      ∧ ((([({ orderId := "ABC123", ConsiderationTx := some c1AuxRow }, [c1AuxRow])] :
            List (IgTrade × List IgTransactionRow)).map (fun g => g.2)).join).length ≤
            ([c1AuxRow, c1OtherRow] : List IgTransactionRow).length) :=
  ⟨by decide,
   c1_aux_consumed_exactly_once ["ABC123"] [c1AuxRow, c1OtherRow] _ _ (by decide)⟩


/-! ## Claim C2: timestamp-ascending output order -/

/-- Counterexample to claim C2 as stated: the eToro parser emits rows in
sheet order without sorting; an activity sheet whose rows are not
chronological yields an output sequence that is not timestamp-ascending. -/
theorem c2_counterexample :
    (Etoro.parse [c2LaterDeposit, c2EarlierDeposit] []).isOk = true
    ∧ ¬ List.Sorted Schwab.rowTimestampLe
        ((Etoro.parse [c2LaterDeposit, c2EarlierDeposit] []).toOption.getD []) := by
  constructor
  · decide
  · decide

/-- Claim C2 as amended: the Schwab parser sorts the built rows by their
stored timestamp string before handing them to the serializer, so its output
is timestamp-ascending; the eToro and IG parsers emit rows in input-derived
order without a global sort. -/
theorem c2_amended_schwab_sorted :
    ∀ (equity_awards : List EquityAwardRow) (brokerage : List BrokerageRow)
      (rows : List OutputRow),
      Schwab.transform_data equity_awards brokerage = .ok rows →
      List.Sorted Schwab.rowTimestampLe rows := by
  intro equity_awards brokerage rows h
  rw [Schwab.transform_data] at h
  cases he : equity_awards.foldlM
      (fun acc r => (Schwab.equity_award_rows r).map (acc ++ ·)) [] with
  | error e =>
    rw [he] at h
    simp only [Except_error_bind, Except_pure_bind, Except_map_error] at h
    exact absurd h (by simp)
  | ok eqRows =>
    rw [he] at h
    simp only [Except_ok_bind, Except_pure_bind, Except_map_ok] at h
    cases hb : brokerage.foldlM
        (fun acc r => (Schwab.brokerage_rows r).map (acc ++ ·)) [] with
    | error e =>
      rw [hb] at h
      simp only [Except_error_bind, Except_pure_bind, Except_map_error] at h
      exact absurd h (by simp)
    | ok brRows =>
      rw [hb] at h
      simp only [Except_ok_bind, Except_pure_bind, Except_map_ok, pure, Except.pure] at h
      injection h with h1
      subst h1
      exact List.sorted_insertionSort Schwab.rowTimestampLe _

/-- Witness for the amended claim C2: a concrete Schwab run with one
interest row succeeds and its output is sorted. -/
theorem c2_amended_schwab_sorted_witness :
    (Schwab.transform_data [] [c2InterestRow]).isOk = true
    ∧ (∀ rows, Schwab.transform_data [] [c2InterestRow] = .ok rows →
        List.Sorted Schwab.rowTimestampLe rows) :=
  ⟨by decide, fun rows h => c2_amended_schwab_sorted [] [c2InterestRow] rows h⟩


/-! ## Claim C4: non-CFD position close -/

/-- Counterexample to claim C4 as stated: with the Scenario B signs (opening
amount recorded as -500, profit 50) the synthesized quote amount is
position.Amount + profit = -450, not the claimed opening-magnitude-plus-
profit 550. -/
theorem c4_counterexample :
    (Etoro.parse_close_position c4NegTx c4NegPosition).map (fun r => r.QuoteAmount) =
      .ok (some ((-450 : ℚ)))
    ∧ ((-450 : ℚ) ≠ |(-500 : ℚ)| + 50) := by
  constructor
  · decide
  · decide

/-- Claim C4 as amended: a non-CFD close parses only when the transaction
amount equals both the recorded position profit and the realized equity
change (otherwise the run aborts), and the synthesized entry is a sell with
the position unit count as base amount and position.Amount + profit (the
signed recorded opening amount plus the profit) as quote amount; with an
opening amount recorded as 500 and profit 50 this gives 550. -/
theorem c4_close_position_amended :
    (∀ (t : EtoroTransactionRow) (pos : EtoroPositionRow) (r : OutputRow),
        Etoro.parse_close_position t pos = .ok r →
        t.Amount = pos.Profit ∧ t.Amount = t.Realized_Equity_Change ∧
        r.Type' = OutputType.Sell ∧ r.BaseAmount = some pos.Units ∧
        r.QuoteAmount = some (roundTo 4 (pos.Amount + t.Amount)))
    ∧ (∀ (t : EtoroTransactionRow) (pos : EtoroPositionRow),
        t.Amount ≠ pos.Profit ∨ t.Amount ≠ t.Realized_Equity_Change →
        (Etoro.parse_close_position t pos).isOk = false)
    ∧ Etoro.parse_close_position c4CloseTx c4Position = .ok c4ExpectedRow := by
  refine ⟨?_, ?_, by decide⟩
  · intro t pos r h
    obtain ⟨v, hv⟩ := etoro_ticker_ok t.Details t.Asset_type
    rw [Etoro.parse_close_position, hv, Except_ok_bind, validate_bind, validate_bind] at h
    split_ifs at h with h1 h2
    rw [Except_pure_eq] at h
    injection h with h'
    subst h'
    exact ⟨h1.2, h2, rfl, rfl, rfl⟩
  · intro t pos hne
    obtain ⟨v, hv⟩ := etoro_ticker_ok t.Details t.Asset_type
    unfold Etoro.parse_close_position
    rw [hv, Except_ok_bind, validate_bind, validate_bind]
    split_ifs with h1 h2
    · rcases hne with hne | hne
      · exact absurd h1.2 hne
      · exact absurd h2 hne
    · rfl
    · rfl

/-- Witness for the amended claim C4: the concrete Scenario B close passes
and yields the expected amounts, and a close whose amount disagrees with the
recorded profit aborts. -/
theorem c4_close_position_amended_witness :
    (c4CloseTx.Amount = c4Position.Profit ∧
      c4CloseTx.Amount = c4CloseTx.Realized_Equity_Change ∧
      c4ExpectedRow.Type' = OutputType.Sell ∧
      c4ExpectedRow.BaseAmount = some c4Position.Units ∧
      c4ExpectedRow.QuoteAmount = some (roundTo 4 (c4Position.Amount + c4CloseTx.Amount)))
    ∧ (Etoro.parse_close_position c4NegTx c5posA).isOk = false :=
  ⟨c4_close_position_amended.1 c4CloseTx c4Position c4ExpectedRow
      c4_close_position_amended.2.2,
   c4_close_position_amended.2.1 c4NegTx c5posA (Or.inl (by decide))⟩

/-! ## Claim C5: partial-position sibling resolution -/

/-- Claim C5: the sibling set is exactly the positions with the same open
date and asset type but a different id, and a parsed opening trade carries
as quote amount the position amount plus the sum of all sibling amounts,
rounded only at synthesis. -/
theorem c5_partial_position_resolution :
    (∀ (positions : List EtoroPositionRow) (p q : EtoroPositionRow),
        q ∈ Etoro.get_all_other_partial_trade_positions positions p ↔
          q ∈ positions ∧ q.Open_Date = p.Open_Date ∧ q.Type' = p.Type' ∧ q.Index ≠ p.Index)
    ∧ (∀ (positions : List EtoroPositionRow) (t : EtoroTransactionRow)
        (pos : EtoroPositionRow) (r : OutputRow),
        Etoro.parse_open_position positions t pos = .ok r →
        t.Amount = pos.Amount ∧
        r.QuoteAmount = some (roundTo 4 (pos.Amount +
          ((Etoro.get_all_other_partial_trade_positions positions pos).map
            (fun q => q.Amount)).sum)))
    ∧ Etoro.parse_open_position [c5posA, c5posB] c5openTx c5posA = .ok c5row := by
  refine ⟨?_, ?_, by decide⟩
  · intro positions p q
    simp only [Etoro.get_all_other_partial_trade_positions, List.mem_filter,
      decide_eq_true_eq]
    tauto
  · intro positions t pos r h
    obtain ⟨v, hv⟩ := etoro_ticker_ok t.Details t.Asset_type
    rw [Etoro.parse_open_position, hv, Except_ok_bind, validate_bind, validate_bind] at h
    split_ifs at h with h1 h2
    rw [Except_pure_eq] at h
    injection h with h'
    subst h'
    refine ⟨h1.2, ?_⟩
    show some (roundTo 4 (t.Amount + _)) = _
    rw [h1.2]

/-- Witness for claim C5 at the concrete sibling pair: position 11 with
amount 100 plus sibling 12 with amount 200 give the quote amount 300. -/
theorem c5_partial_position_resolution_witness :
    c5openTx.Amount = c5posA.Amount ∧
    c5row.QuoteAmount = some (roundTo 4 (c5posA.Amount +
      ((Etoro.get_all_other_partial_trade_positions [c5posA, c5posB] c5posA).map
        (fun q => q.Amount)).sum)) :=
  c5_partial_position_resolution.2.1 [c5posA, c5posB] c5openTx c5posA c5row
    c5_partial_position_resolution.2.2

/-! ## Claim C6: partial-position consistency precondition -/

/-- If the partial-position consistency check passes, an opening-trade
record exists for the position or one of its siblings. -/
theorem check_consistency_imp_exists
    (txs : List EtoroTransactionRow) (positions : List EtoroPositionRow)
    (p : EtoroPositionRow)
    (h : Etoro.check_partial_positions_consistency txs positions p = true) :
    ∃ t, t ∈ txs ∧ t.Type' = "Open Position" ∧
      (t.Position_ID = natDigitsStr p.Index ∨
       ∃ q, q ∈ Etoro.get_all_other_partial_trade_positions positions p ∧
         t.Position_ID = natDigitsStr q.Index) := by
  rw [Etoro.check_partial_positions_consistency] at h
  split_ifs at h with hown
  · obtain ⟨t0, ht0⟩ := List.length_eq_one.mp hown
    have hmem : t0 ∈ Etoro.get_transactions_of_type txs p.Index "Open Position" := by
      rw [ht0]; exact List.mem_singleton.mpr rfl
    rw [Etoro.get_transactions_of_type] at hmem
    obtain ⟨htx, hpred⟩ := List.mem_filter.mp hmem
    simp only [decide_eq_true_eq] at hpred
    exact ⟨t0, htx, hpred.2, Or.inl hpred.1⟩
  · rw [List.any_eq_true] at h
    obtain ⟨q, hq, hqlen⟩ := h
    simp only [decide_eq_true_eq] at hqlen
    obtain ⟨t0, ht0⟩ := List.length_eq_one.mp hqlen
    have hmem : t0 ∈ Etoro.get_transactions_of_type txs q.Index "Open Position" := by
      rw [ht0]; exact List.mem_singleton.mpr rfl
    rw [Etoro.get_transactions_of_type] at hmem
    obtain ⟨htx, hpred⟩ := List.mem_filter.mp hmem
    simp only [decide_eq_true_eq] at hpred
    exact ⟨t0, htx, hpred.2, Or.inr ⟨q, hq, hpred.1⟩⟩

theorem validate_one_position_error_of_check_false
    (txs : List EtoroTransactionRow) (positions : List EtoroPositionRow)
    (p : EtoroPositionRow)
    (hcheck : Etoro.check_partial_positions_consistency txs positions p = false) :
    (Etoro.validate_one_position txs positions p).isOk = false := by
  rw [Etoro.validate_one_position, validate_bind, validate_bind]
  split_ifs with h1 h2
  · exact validate_isOk_false (by simp [hcheck])
  · rfl
  · rfl

theorem foldlM_validate_error (txs : List EtoroTransactionRow)
    (positions : List EtoroPositionRow) :
    ∀ (l : List EtoroPositionRow) (p : EtoroPositionRow), p ∈ l →
    (Etoro.validate_one_position txs positions p).isOk = false →
    (l.foldlM (fun _ q => Etoro.validate_one_position txs positions q) ()).isOk = false := by
  intro l
  induction l with
  | nil => intro p hp; simp at hp
  | cons x xs ih =>
    intro p hp herr
    rw [List.foldlM_cons]
    cases hfx : Etoro.validate_one_position txs positions x with
    | error e => rw [Except_error_bind]; rfl
    | ok u =>
      cases u
      rcases List.mem_cons.mp hp with rfl | hp'
      · rw [hfx] at herr; exact absurd herr (by decide)
      · rw [Except_ok_bind]
        exact ih p hp' herr

theorem validate_positions_error_of_missing_open
    (txs : List EtoroTransactionRow) (positions : List EtoroPositionRow)
    (p : EtoroPositionRow) (hp : p ∈ positions)
    (hno : ¬ ∃ t, t ∈ txs ∧ t.Type' = "Open Position" ∧
      (t.Position_ID = natDigitsStr p.Index ∨
       ∃ q, q ∈ Etoro.get_all_other_partial_trade_positions positions p ∧
         t.Position_ID = natDigitsStr q.Index)) :
    (Etoro.validate_positions txs positions).isOk = false := by
  have hcheck : Etoro.check_partial_positions_consistency txs positions p = false := by
    cases hc : Etoro.check_partial_positions_consistency txs positions p
    · rfl
    · exact absurd (check_consistency_imp_exists txs positions p hc) hno
  have herr := validate_one_position_error_of_check_false txs positions p hcheck
  rw [Etoro.validate_positions]
  have hfold := foldlM_validate_error txs positions positions p hp herr
  cases hf : positions.foldlM (fun _ q => Etoro.validate_one_position txs positions q) () with
  | error e => rw [Except_mmap_error]; rfl
  | ok u => cases u; rw [hf] at hfold; exact absurd hfold (by decide)

theorem parse_error_widen_message
    (txs : List EtoroTransactionRow) (p : EtoroPositionRow)
    (h1 : p.Type' = "CFD" ∨ p.Rollover_Fees_and_Dividends =
      ((Etoro.get_transactions_of_type txs p.Index "Dividend").map (fun t => t.Amount)).sum)
    (h2 : p.Type' = "CFD" ∨ p.Leverage = 1)
    (hcheck : Etoro.check_partial_positions_consistency txs [p] p = false) :
    Etoro.parse txs [p] = .error (Etoro.widen_window_message p) := by
  have hone : Etoro.validate_one_position txs [p] p =
      .error (Etoro.widen_window_message p) := by
    rw [Etoro.validate_one_position, validate_bind, validate_bind, if_pos h1, if_pos h2,
      validate_error_of_not (by simp [hcheck])]
  have hvp : Etoro.validate_positions txs [p] = .error (Etoro.widen_window_message p) := by
    rw [Etoro.validate_positions, List.foldlM_cons, hone, Except_error_bind,
      Except_mmap_error]
  rw [Etoro.parse, hvp, Except_error_bind]

/-- Claim C6: reconciliation proceeds only when an opening-trade record
exists in the source window for the position or for one of its siblings;
when none exists the whole validation fails, and for a single position the
run aborts with exactly the message instructing the user to use an
earlier-starting source file. -/
theorem c6_partial_position_precondition :
    (∀ (txs : List EtoroTransactionRow) (positions : List EtoroPositionRow)
        (p : EtoroPositionRow),
        Etoro.check_partial_positions_consistency txs positions p = true →
        ∃ t, t ∈ txs ∧ t.Type' = "Open Position" ∧
          (t.Position_ID = natDigitsStr p.Index ∨
           ∃ q, q ∈ Etoro.get_all_other_partial_trade_positions positions p ∧
             t.Position_ID = natDigitsStr q.Index))
    ∧ (∀ (txs : List EtoroTransactionRow) (positions : List EtoroPositionRow)
        (p : EtoroPositionRow), p ∈ positions →
        (¬ ∃ t, t ∈ txs ∧ t.Type' = "Open Position" ∧
          (t.Position_ID = natDigitsStr p.Index ∨
           ∃ q, q ∈ Etoro.get_all_other_partial_trade_positions positions p ∧
             t.Position_ID = natDigitsStr q.Index)) →
        (Etoro.validate_positions txs positions).isOk = false)
    ∧ (∀ (txs : List EtoroTransactionRow) (p : EtoroPositionRow),
        (p.Type' = "CFD" ∨ p.Rollover_Fees_and_Dividends =
          ((Etoro.get_transactions_of_type txs p.Index "Dividend").map
            (fun t => t.Amount)).sum) →
        (p.Type' = "CFD" ∨ p.Leverage = 1) →
        (¬ ∃ t, t ∈ txs ∧ t.Type' = "Open Position" ∧
          (t.Position_ID = natDigitsStr p.Index ∨
           ∃ q, q ∈ Etoro.get_all_other_partial_trade_positions [p] p ∧
             t.Position_ID = natDigitsStr q.Index)) →
        Etoro.parse txs [p] = .error (Etoro.widen_window_message p)) := by
  refine ⟨check_consistency_imp_exists, ?_, ?_⟩
  · intro txs positions p hp hno
    exact validate_positions_error_of_missing_open txs positions p hp hno
  · intro txs p h1 h2 hno
    have hcheck : Etoro.check_partial_positions_consistency txs [p] p = false := by
      cases hc : Etoro.check_partial_positions_consistency txs [p] p
      · rfl
      · exact absurd (check_consistency_imp_exists txs [p] p hc) hno
    exact parse_error_widen_message txs p h1 h2 hcheck

/-- Witness for claim C6: with an opening trade for position 21 the check
passes and the record is found; a position with no opening trade in an
empty window aborts the whole run with the widen-the-window message. -/
theorem c6_partial_position_precondition_witness :
    (∃ t, t ∈ [c6openTx] ∧ t.Type' = "Open Position" ∧
      (t.Position_ID = natDigitsStr c6pos.Index ∨
       ∃ q, q ∈ Etoro.get_all_other_partial_trade_positions [c6pos] c6pos ∧
         t.Position_ID = natDigitsStr q.Index))
    ∧ Etoro.parse [] [c6noOpenPos] = .error (Etoro.widen_window_message c6noOpenPos) :=
  ⟨c6_partial_position_precondition.1 [c6openTx] [c6pos] c6pos (by decide),
   c6_partial_position_precondition.2.2 [] c6noOpenPos (by decide) (by decide)
     (by rintro ⟨t, ht, -⟩; simp at ht)⟩

/-! ## Claim C9: stock split share derivation -/

/-- Counterexample to claim C9 as stated: one unit split 3:1 derives
1 - 1/3 = 2/3 new shares, but the synthesized base amount is the
eight-place rounding 0.66666667, not the exact derived value. -/
theorem c9_counterexample :
    (Etoro.parse_stock_split [c9cTx] c9cTx c9cPos).map (fun r => r.BaseAmount) =
      .ok (some ((66666667 : ℚ) / 100000000))
    ∧ ((66666667 : ℚ) / 100000000 ≠ 1 - 1 / 3) := by
  constructor
  · decide
  · decide

/-- Claim C9 as amended: every parsed stock split emits a chain-split entry
whose base amount is the derived newly issued share count
units - units / splitTo, rounded to eight decimal places at synthesis;
Scenario D (100 units, split 2:1) yields exactly 50. -/
theorem c9_stock_split_amended :
    (∀ (txs : List EtoroTransactionRow) (t : EtoroTransactionRow)
        (pos : EtoroPositionRow) (r : OutputRow),
        Etoro.parse_stock_split txs t pos = .ok r →
        r.Type' = OutputType.ChainSplit ∧
        ∃ (name : String) (split_to split_from : ℕ),
          Etoro.parse_split_details t.Details = some (name, split_to, split_from) ∧
          split_from = 1 ∧
          r.BaseAmount = some (roundTo 8 (pos.Units - pos.Units / (split_to : ℚ))))
    ∧ Etoro.parse_stock_split [c9dTx] c9dTx c9dPos = .ok c9dRow := by
  refine ⟨?_, by decide⟩
  intro txs t pos r h
  rw [Etoro.parse_stock_split, validate_bind] at h
  split_ifs at h with hA
  split at h
  · exact absurd h (by simp)
  · rename_i td hsd
    obtain ⟨v, hv⟩ := etoro_ticker_ok td.1 t.Asset_type
    rw [hv, Except_ok_bind, validate_bind, validate_bind] at h
    split_ifs at h with hB hC
    rw [Except_pure_eq] at h
    injection h with h'
    subst h'
    exact ⟨rfl, td.1, td.2.1, td.2.2, by rw [hsd], hB, rfl⟩

/-- Witness for the amended claim C9 at the Scenario D input. -/
theorem c9_stock_split_amended_witness :
    c9dRow.Type' = OutputType.ChainSplit ∧
    ∃ (name : String) (split_to split_from : ℕ),
      Etoro.parse_split_details c9dTx.Details = some (name, split_to, split_from) ∧
      split_from = 1 ∧
      c9dRow.BaseAmount = some (roundTo 8 (c9dPos.Units - c9dPos.Units / (split_to : ℚ))) :=
  c9_stock_split_amended.1 [c9dTx] c9dTx c9dPos c9dRow c9_stock_split_amended.2


/-! ## Claim C3: option trade validation -/

theorem ibkr_ticker_option_ok (s : String) : ∃ v, Ibkr.ibkr_ticker s "Option" = .ok v :=
  ⟨_, (parse_ticker_characterization s .Ibkr "Option" _ rfl).2.2.1 rfl⟩

/-- Counterexample to claim C3 as stated: an opening row with basis
510.00004 violates the exact equation basis = -(proceeds + commission) the
claim requires for validation to succeed, yet the code accepts it, because
the source compares the basis only after rounding both sides to four
decimal places (and with absolute values on both sides). -/
theorem c3_counterexample :
    (Ibkr.parse_stocks_row c3RoundingRow "Option").isOk = true
    ∧ c3RoundingRow.Basis ≠ -(c3RoundingRow.Proceeds + c3RoundingRow.Comm_Fee) := by
  constructor
  · decide
  · decide

set_option maxHeartbeats 2000000 in
/-- Claim C3 as amended: an option trade row passes validation exactly when
the discriminator is Order, the rounded-absolute basis consistency equation
round(abs(basis), 4) = round(abs(proceeds - realizedPL + commission), 4)
holds, and the row matches either the opening shape (code O with only O, P,
FPA codes, zero realized profit and percentage, quantity > 0, proceeds < 0,
commission <= 0, basis > 0) or the closing shape (code C without O, only C,
P, Ep, FPA codes, and either the expiry value pattern or the regular close
sign pattern with proceeds + commission > 0).  The Scenario C opening row
(quantity 5, proceeds -500, commission -10, basis 510) passes, and the same
row with basis 500 aborts the run. -/
theorem c3_option_validation_amended :
    (∀ row : StocksAndDerivativesTradesRow,
      (Ibkr.parse_stocks_row row "Option").isOk = true ↔
        (row.DataDiscriminator = "Order" ∧
         roundTo 4 |row.Basis| = roundTo 4 |row.Proceeds - row.Realized_P_L + row.Comm_Fee| ∧
         ((IbkrCode.O ∈ row.Code ∧ (∀ c ∈ row.Code, c ∈ [IbkrCode.O, .P, .FPA]) ∧
           row.Realized_P_L = 0 ∧ row.Realized_P_L_pct = 0 ∧
           0 < row.Quantity ∧ row.Proceeds < 0 ∧ row.Comm_Fee ≤ 0 ∧ 0 < row.Basis)
          ∨ (IbkrCode.O ∉ row.Code ∧ IbkrCode.C ∈ row.Code ∧
             (∀ c ∈ row.Code, c ∈ [IbkrCode.C, .P, .Ep, .FPA]) ∧
             ((IbkrCode.Ep ∈ row.Code ∧ row.Quantity < 0 ∧ row.Proceeds = 0 ∧
               row.Comm_Fee = 0 ∧ row.Basis < 0)
              ∨ (IbkrCode.Ep ∉ row.Code ∧ row.Quantity < 0 ∧ 0 < row.Proceeds ∧
                 row.Comm_Fee ≤ 0 ∧ row.Basis < 0 ∧ 0 < row.Proceeds + row.Comm_Fee))))))
    ∧ (Ibkr.parse_stocks_row c3OpeningRow "Option").isOk = true
    ∧ (Ibkr.parse_stocks_row c3BadBasisRow "Option").isOk = false := by
  refine ⟨?_, by decide, by decide⟩
  intro row
  obtain ⟨v, hv⟩ := ibkr_ticker_option_ok row.Symbol
  simp only [Ibkr.parse_stocks_row, Ibkr.parse_opening_trade, Ibkr.parse_closing_trade,
    Ibkr.validate_allowed_codes, validate_bind, bind_ite, hv, Except_ok_bind,
    Except_pure_eq]
  split_ifs <;> simp_all [Except_isOk_error, Except_isOk_ok] <;>
    first
      | tauto
      | (exfalso; linarith)
      | aesop

/-- Witness for the amended claim C3: the characterization applied at the
Scenario C opening row. -/
theorem c3_option_validation_amended_witness :
    (Ibkr.parse_stocks_row c3OpeningRow "Option").isOk = true :=
  (c3_option_validation_amended.1 c3OpeningRow).mpr (by decide)

end StockToCtc
